import Mathlib

/-!
Shallow embedding of the SNES_For_Mac core emulation engine
(`Core/Memory/Memory.cpp` and `Core/CPU/CPU65c816.cpp`) in Lean 4,
with theorems settling the specification claims about it.

Machine integers are modelled as `Nat` with explicit `% 2^w` (or `&&& mask`)
at the points where the C++ code truncates: assignments to narrower types,
wrap-around arithmetic on `uint16`, and the `int16` conversion in
`getAddress_AbsoluteX`.  Byte arrays (`std::vector<uint8>`) are modelled as a
size together with a contents function `Nat → Nat`; the well-formedness
predicate `Memory.WF` records that every stored cell is a byte, which the C++
vector element type guarantees.
-/

namespace Snes

/-- The memory region enumeration of `Memory.hpp`. -/
inductive MemoryRegion where
  | ROM
  | WRAM
  | SRAM
  | HARDWARE
  | UNMAPPED
deriving DecidableEq

/-- The `Memory` bus state: each `std::vector<uint8>` of `Memory.hpp` is a
size plus a contents function. -/
structure Memory where
  wramSize : Nat
  wram : Nat → Nat
  sramSize : Nat
  sram : Nat → Nat
  vramSize : Nat
  vram : Nat → Nat
  cgramSize : Nat
  cgram : Nat → Nat
  oamSize : Nat
  oam : Nat → Nat
  romSize : Nat
  rom : Nat → Nat

/-- All stored cells are bytes (guaranteed by `uint8` elements in C++). -/
def Memory.WF (m : Memory) : Prop :=
  (∀ i, m.wram i < 256) ∧ (∀ i, m.sram i < 256) ∧ (∀ i, m.rom i < 256)

/-- The freshly constructed `Memory` (constructor + `reset`): 128 KiB WRAM,
32 KiB SRAM, 64 KiB VRAM, 512 B CGRAM, 544 B OAM, all zeroed, no ROM. -/
def Memory.init : Memory where
  wramSize := 128 * 1024
  wram := fun _ => 0
  sramSize := 32 * 1024
  sram := fun _ => 0
  vramSize := 64 * 1024
  vram := fun _ => 0
  cgramSize := 512
  cgram := fun _ => 0
  oamSize := 544
  oam := fun _ => 0
  romSize := 0
  rom := fun _ => 0

/-- Pointwise update of a contents function (a `vector[i] = value` store). -/
def updateFn (f : Nat → Nat) (i v : Nat) : Nat → Nat :=
  fun j => if j = i then v else f j

/-- `size_t` subtraction by one: `rom.size() - 1` wraps modulo `2^64` when the
vector is empty. -/
def usizeSub1 (n : Nat) : Nat :=
  (n + (2 ^ 64 - 1)) % 2 ^ 64

/-- `Memory::loadROM`: rejects an empty image, otherwise `rom = romData`. -/
def Memory.loadROM (m : Memory) (romData : List Nat) : Bool × Memory :=
  if romData.isEmpty then
    (false, m)
  else
    (true, { m with romSize := romData.length, rom := fun i => romData.getD i 0 })

/-- `Memory::getRegion`: decode a 24-bit address into a region. -/
def Memory.getRegion (address : Nat) : MemoryRegion :=
  let bank := (address >>> 16) &&& 0xFF
  let offset := address &&& 0xFFFF
  if bank ≤ 0x3F ∨ (bank ≥ 0x80 ∧ bank ≤ 0xBF) then
    if offset < 0x2000 then .WRAM
    else if 0x2000 ≤ offset ∧ offset < 0x6000 then .HARDWARE
    else if 0x6000 ≤ offset ∧ offset < 0x8000 then .SRAM
    else .ROM
  else if bank = 0x7E ∨ bank = 0x7F then .WRAM
  else .ROM

/-- `Memory::readMapped`: region-decoded read; every fall-through path of the
C++ `switch` returns the open-bus value `0xFF`. -/
def Memory.readMapped (m : Memory) (address : Nat) : Nat :=
  let bank := (address >>> 16) &&& 0xFF
  let offset := address &&& 0xFFFF
  match Memory.getRegion address with
  | .WRAM =>
      if bank = 0x7E ∨ bank = 0x7F then
        let wramAddr := ((bank &&& 0x01) <<< 16) ||| offset
        if wramAddr < m.wramSize then m.wram wramAddr else 0xFF
      else
        if offset < 0x2000 then m.wram offset else 0xFF
  | .ROM =>
      let romAddr := address &&& usizeSub1 m.romSize
      if romAddr < m.romSize then m.rom romAddr else 0xFF
  | .SRAM =>
      let sramAddr := (offset - 0x6000) &&& usizeSub1 m.sramSize
      if sramAddr < m.sramSize then m.sram sramAddr else 0xFF
  | .HARDWARE => 0xFF
  | .UNMAPPED => 0xFF

/-- `Memory::writeMapped`: region-decoded write; hardware-register, ROM and
unmapped writes are discarded. -/
def Memory.writeMapped (m : Memory) (address value : Nat) : Memory :=
  let bank := (address >>> 16) &&& 0xFF
  let offset := address &&& 0xFFFF
  match Memory.getRegion address with
  | .WRAM =>
      if bank = 0x7E ∨ bank = 0x7F then
        let wramAddr := ((bank &&& 0x01) <<< 16) ||| offset
        if wramAddr < m.wramSize then { m with wram := updateFn m.wram wramAddr value } else m
      else
        if offset < 0x2000 then { m with wram := updateFn m.wram offset value } else m
  | .SRAM =>
      let sramAddr := (offset - 0x6000) &&& usizeSub1 m.sramSize
      if sramAddr < m.sramSize then { m with sram := updateFn m.sram sramAddr value } else m
  | .HARDWARE => m
  | .ROM => m
  | .UNMAPPED => m

/-- `Memory::read`: mask the incoming address to 24 bits, then decode. -/
def Memory.read (m : Memory) (address : Nat) : Nat :=
  m.readMapped (address &&& 0xFFFFFF)

/-- `Memory::write`: mask the incoming address to 24 bits, then decode. -/
def Memory.write (m : Memory) (address value : Nat) : Memory :=
  m.writeMapped (address &&& 0xFFFFFF) value

/-! ## The CPU register file and status flags (`CPU65c816.hpp`) -/

/-- Status flag bit masks (the `StatusFlag` enumeration). -/
def FLAG_CARRY : Nat := 0x01
def FLAG_ZERO : Nat := 0x02
def FLAG_IRQ_DISABLE : Nat := 0x04
def FLAG_DECIMAL : Nat := 0x08
def FLAG_INDEX_WIDTH : Nat := 0x10
def FLAG_MEMORY_WIDTH : Nat := 0x20
def FLAG_OVERFLOW : Nat := 0x40
def FLAG_NEGATIVE : Nat := 0x80

/-- The register file `CPU65c816::Registers`. -/
structure Registers where
  A : Nat
  X : Nat
  Y : Nat
  SP : Nat
  PC : Nat
  P : Nat
  DBR : Nat
  PBR : Nat
  D : Nat
  E : Bool

/-- A CPU attached to its memory bus (the `CPU65c816` object together with
the `Memory` its `memory` pointer designates). -/
structure Machine where
  regs : Registers
  mem : Memory

/-- `CPU65c816::getFlag`. -/
def getFlag (r : Registers) (flag : Nat) : Bool :=
  r.P &&& flag ≠ 0

/-- `CPU65c816::setFlag`; `P &= ~flag` on a `uint8` is `P &&& (0xFF ^^^ flag)`. -/
def setFlag (r : Registers) (flag : Nat) (value : Bool) : Registers :=
  if value then { r with P := r.P ||| flag }
  else { r with P := r.P &&& (0xFF ^^^ flag) }

/-- `CPU65c816::isMemory8Bit`. -/
def isMemory8Bit (r : Registers) : Bool :=
  r.P &&& FLAG_MEMORY_WIDTH ≠ 0

/-- `CPU65c816::isIndex8Bit`. -/
def isIndex8Bit (r : Registers) : Bool :=
  r.P &&& FLAG_INDEX_WIDTH ≠ 0

/-- `CPU65c816::reset` register state (the PC placeholder `0x8000`). -/
def resetRegisters : Registers where
  A := 0
  X := 0
  Y := 0
  SP := 0x01FF
  P := 0x34
  DBR := 0
  PBR := 0
  D := 0
  E := true
  PC := 0x8000

/-! ## CPU memory access, fetch and stack helpers (`CPU65c816.cpp`) -/

/-- `CPU65c816::read8` (the memory pointer is attached, so the null-pointer
branch never runs). -/
def read8 (m : Memory) (address : Nat) : Nat :=
  m.read address

/-- `CPU65c816::read16`: little-endian pair of byte reads. -/
def read16 (m : Memory) (address : Nat) : Nat :=
  let lo := read8 m address
  let hi := read8 m (address + 1)
  (hi <<< 8) ||| lo

/-- `CPU65c816::write8`. -/
def write8 (m : Memory) (address value : Nat) : Memory :=
  m.write address value

/-- `CPU65c816::write16`: little-endian pair of byte writes. -/
def write16 (m : Memory) (address value : Nat) : Memory :=
  let m := write8 m address (value &&& 0xFF)
  write8 m (address + 1) ((value >>> 8) &&& 0xFF)

/-- `CPU65c816::fetchByte`: read at `PBR:PC`, then `PC++` (16-bit wrap). -/
def fetchByte (mc : Machine) : Nat × Machine :=
  let address := (mc.regs.PBR <<< 16) ||| mc.regs.PC
  let value := read8 mc.mem address
  (value, { mc with regs := { mc.regs with PC := (mc.regs.PC + 1) % 0x10000 } })

/-- `CPU65c816::fetchWord`: low byte first, then high byte. -/
def fetchWord (mc : Machine) : Nat × Machine :=
  let (lo, mc) := fetchByte mc
  let (hi, mc) := fetchByte mc
  ((hi <<< 8) ||| lo, mc)

/-- `CPU65c816::push8`: write at `SP`, decrement `SP` (16-bit wrap), and in
emulation mode clamp `SP` back into page 1. -/
def push8 (mc : Machine) (value : Nat) : Machine :=
  let m := write8 mc.mem mc.regs.SP value
  let sp := (mc.regs.SP + 0xFFFF) % 0x10000
  let sp := if mc.regs.E then 0x0100 ||| (sp &&& 0xFF) else sp
  { regs := { mc.regs with SP := sp }, mem := m }

/-- `CPU65c816::push16`: high byte first, low byte second. -/
def push16 (mc : Machine) (value : Nat) : Machine :=
  let mc := push8 mc ((value >>> 8) &&& 0xFF)
  push8 mc (value &&& 0xFF)

/-- `CPU65c816::pull8`: increment `SP` (16-bit wrap, page-1 clamp in
emulation mode), then read at `SP`. -/
def pull8 (mc : Machine) : Nat × Machine :=
  let sp := (mc.regs.SP + 1) % 0x10000
  let sp := if mc.regs.E then 0x0100 ||| (sp &&& 0xFF) else sp
  (read8 mc.mem sp, { mc with regs := { mc.regs with SP := sp } })

/-- `CPU65c816::pull16`: low byte first, then high byte. -/
def pull16 (mc : Machine) : Nat × Machine :=
  let (lo, mc) := pull8 mc
  let (hi, mc) := pull8 mc
  ((hi <<< 8) ||| lo, mc)

/-- `CPU65c816::updateNZ8` (callers pass an 8-bit value). -/
def updateNZ8 (r : Registers) (value : Nat) : Registers :=
  let r := setFlag r FLAG_ZERO (value == 0)
  setFlag r FLAG_NEGATIVE ((value &&& 0x80) ≠ 0)

/-- `CPU65c816::updateNZ16` (callers pass a 16-bit value). -/
def updateNZ16 (r : Registers) (value : Nat) : Registers :=
  let r := setFlag r FLAG_ZERO (value == 0)
  setFlag r FLAG_NEGATIVE ((value &&& 0x8000) ≠ 0)

/-! ## Addressing modes -/

/-- `CPU65c816::getAddress_Immediate`: the operand lives at `PBR:PC`; PC is
advanced by the *memory* width even for index-width immediates. -/
def getAddress_Immediate (mc : Machine) : Nat × Machine :=
  let address := (mc.regs.PBR <<< 16) ||| mc.regs.PC
  let k := if isMemory8Bit mc.regs then 1 else 2
  (address, { mc with regs := { mc.regs with PC := (mc.regs.PC + k) % 0x10000 } })

/-- `CPU65c816::getAddress_Absolute`. -/
def getAddress_Absolute (mc : Machine) : Nat × Machine :=
  let (offset, mc) := fetchWord mc
  ((mc.regs.DBR <<< 16) ||| offset, mc)

/-- `CPU65c816::getAddress_AbsoluteX`: the source stores `offset + X` into an
`int16` (modular conversion) and the `int16` is then sign-extended when merged
into the `uint32` result. -/
def getAddress_AbsoluteX (mc : Machine) : Nat × Machine :=
  let (offset, mc) := fetchWord mc
  let s := (offset + mc.regs.X) % 0x10000
  let address := if s < 0x8000 then s else 0xFFFF0000 + s
  ((mc.regs.DBR <<< 16) ||| address, mc)

/-- `CPU65c816::getAddress_AbsoluteY` (plain `uint16` sum). -/
def getAddress_AbsoluteY (mc : Machine) : Nat × Machine :=
  let (offset, mc) := fetchWord mc
  let address := (offset + mc.regs.Y) % 0x10000
  ((mc.regs.DBR <<< 16) ||| address, mc)

/-- `CPU65c816::getAddress_Direct`: `D + lo8` computed in `int`, returned as
`uint32`. -/
def getAddress_Direct (mc : Machine) : Nat × Machine :=
  let (offset, mc) := fetchByte mc
  (mc.regs.D + offset, mc)

/-- `CPU65c816::getAddress_DirectX`. -/
def getAddress_DirectX (mc : Machine) : Nat × Machine :=
  let (offset, mc) := fetchByte mc
  (mc.regs.D + offset + (mc.regs.X &&& 0xFF), mc)

/-- `CPU65c816::getAddress_DirectY`. -/
def getAddress_DirectY (mc : Machine) : Nat × Machine :=
  let (offset, mc) := fetchByte mc
  (mc.regs.D + offset + (mc.regs.Y &&& 0xFF), mc)

/-- `CPU65c816::getAddress_IndirectX`: the pointer address is truncated to
`uint16` before the 16-bit read. -/
def getAddress_IndirectX (mc : Machine) : Nat × Machine :=
  let (pointer, mc) := fetchByte mc
  let address := (mc.regs.D + pointer + (mc.regs.X &&& 0xFF)) % 0x10000
  (read16 mc.mem address, mc)

/-- `CPU65c816::getAddress_IndirectY`. -/
def getAddress_IndirectY (mc : Machine) : Nat × Machine :=
  let (pointer, mc) := fetchByte mc
  let baseAddress := read16 mc.mem (mc.regs.D + pointer)
  (baseAddress + mc.regs.Y, mc)

/-- `CPU65c816::getAddress_Indirect` (defined in the source, unused by the
dispatch table). -/
def getAddress_Indirect (mc : Machine) : Nat × Machine :=
  let (pointer, mc) := fetchWord mc
  (read16 mc.mem pointer, mc)

/-! ## Loads, stores, transfers, stack operations -/

/-- `CPU65c816::op_LDA`. -/
def op_LDA (mc : Machine) (address : Nat) : Machine :=
  if isMemory8Bit mc.regs then
    let value := read8 mc.mem address
    let r := { mc.regs with A := (mc.regs.A &&& 0xFF00) ||| value }
    { mc with regs := updateNZ8 r value }
  else
    let value := read16 mc.mem address
    let r := { mc.regs with A := value }
    { mc with regs := updateNZ16 r value }

/-- `CPU65c816::op_LDX`. -/
def op_LDX (mc : Machine) (address : Nat) : Machine :=
  if isIndex8Bit mc.regs then
    let value := read8 mc.mem address
    let r := { mc.regs with X := value }
    { mc with regs := updateNZ8 r value }
  else
    let value := read16 mc.mem address
    let r := { mc.regs with X := value }
    { mc with regs := updateNZ16 r value }

/-- `CPU65c816::op_LDY`. -/
def op_LDY (mc : Machine) (address : Nat) : Machine :=
  if isIndex8Bit mc.regs then
    let value := read8 mc.mem address
    let r := { mc.regs with Y := value }
    { mc with regs := updateNZ8 r value }
  else
    let value := read16 mc.mem address
    let r := { mc.regs with Y := value }
    { mc with regs := updateNZ16 r value }

/-- `CPU65c816::op_STA`. -/
def op_STA (mc : Machine) (address : Nat) : Machine :=
  if isMemory8Bit mc.regs then
    { mc with mem := write8 mc.mem address (mc.regs.A &&& 0xFF) }
  else
    { mc with mem := write16 mc.mem address mc.regs.A }

/-- `CPU65c816::op_STX`. -/
def op_STX (mc : Machine) (address : Nat) : Machine :=
  if isIndex8Bit mc.regs then
    { mc with mem := write8 mc.mem address (mc.regs.X &&& 0xFF) }
  else
    { mc with mem := write16 mc.mem address mc.regs.X }

/-- `CPU65c816::op_STY`. -/
def op_STY (mc : Machine) (address : Nat) : Machine :=
  if isIndex8Bit mc.regs then
    { mc with mem := write8 mc.mem address (mc.regs.Y &&& 0xFF) }
  else
    { mc with mem := write16 mc.mem address mc.regs.Y }

/-- `CPU65c816::op_NOP`. -/
def op_NOP (mc : Machine) : Machine := mc

/-- `CPU65c816::op_TAX`. -/
def op_TAX (mc : Machine) : Machine :=
  if isIndex8Bit mc.regs then
    let r := { mc.regs with X := mc.regs.A &&& 0xFF }
    { mc with regs := updateNZ8 r (r.X &&& 0xFF) }
  else
    let r := { mc.regs with X := mc.regs.A }
    { mc with regs := updateNZ16 r r.X }

/-- `CPU65c816::op_TAY`. -/
def op_TAY (mc : Machine) : Machine :=
  if isIndex8Bit mc.regs then
    let r := { mc.regs with Y := mc.regs.A &&& 0xFF }
    { mc with regs := updateNZ8 r (r.Y &&& 0xFF) }
  else
    let r := { mc.regs with Y := mc.regs.A }
    { mc with regs := updateNZ16 r r.Y }

/-- `CPU65c816::op_TXA`. -/
def op_TXA (mc : Machine) : Machine :=
  if isMemory8Bit mc.regs then
    let r := { mc.regs with A := (mc.regs.A &&& 0xFF00) ||| (mc.regs.X &&& 0xFF) }
    { mc with regs := updateNZ8 r (r.A &&& 0xFF) }
  else
    let r := { mc.regs with A := mc.regs.X }
    { mc with regs := updateNZ16 r r.A }

/-- `CPU65c816::op_TYA`. -/
def op_TYA (mc : Machine) : Machine :=
  if isMemory8Bit mc.regs then
    let r := { mc.regs with A := (mc.regs.A &&& 0xFF00) ||| (mc.regs.Y &&& 0xFF) }
    { mc with regs := updateNZ8 r (r.A &&& 0xFF) }
  else
    let r := { mc.regs with A := mc.regs.Y }
    { mc with regs := updateNZ16 r r.A }

/-- `CPU65c816::op_TSX`: always transfers the full 16-bit `SP` into `X`; only
the N/Z update is width-gated. -/
def op_TSX (mc : Machine) : Machine :=
  let r := { mc.regs with X := mc.regs.SP }
  if isIndex8Bit r then
    { mc with regs := updateNZ8 r (r.X &&& 0xFF) }
  else
    { mc with regs := updateNZ16 r r.X }

/-- `CPU65c816::op_TXS`: always sets the full 16-bit `SP`, no flags. -/
def op_TXS (mc : Machine) : Machine :=
  { mc with regs := { mc.regs with SP := mc.regs.X } }

/-- `CPU65c816::op_TCD`. -/
def op_TCD (mc : Machine) : Machine :=
  let r := { mc.regs with D := mc.regs.A }
  { mc with regs := updateNZ16 r r.D }

/-- `CPU65c816::op_TDC`. -/
def op_TDC (mc : Machine) : Machine :=
  let r := { mc.regs with A := mc.regs.D }
  { mc with regs := updateNZ16 r r.A }

/-- `CPU65c816::op_TCS`: always the full 16-bit transfer, no flags. -/
def op_TCS (mc : Machine) : Machine :=
  { mc with regs := { mc.regs with SP := mc.regs.A } }

/-- `CPU65c816::op_TSC`. -/
def op_TSC (mc : Machine) : Machine :=
  let r := { mc.regs with A := mc.regs.SP }
  { mc with regs := updateNZ16 r r.A }

/-- `CPU65c816::op_PHA`. -/
def op_PHA (mc : Machine) : Machine :=
  if isMemory8Bit mc.regs then push8 mc (mc.regs.A &&& 0xFF)
  else push16 mc mc.regs.A

/-- `CPU65c816::op_PHX`. -/
def op_PHX (mc : Machine) : Machine :=
  if isIndex8Bit mc.regs then push8 mc (mc.regs.X &&& 0xFF)
  else push16 mc mc.regs.X

/-- `CPU65c816::op_PHY`. -/
def op_PHY (mc : Machine) : Machine :=
  if isIndex8Bit mc.regs then push8 mc (mc.regs.Y &&& 0xFF)
  else push16 mc mc.regs.Y

/-- `CPU65c816::op_PHP`. -/
def op_PHP (mc : Machine) : Machine :=
  push8 mc mc.regs.P

/-- `CPU65c816::op_PHD`. -/
def op_PHD (mc : Machine) : Machine :=
  push16 mc mc.regs.D

/-- `CPU65c816::op_PHB`. -/
def op_PHB (mc : Machine) : Machine :=
  push8 mc mc.regs.DBR

/-- `CPU65c816::op_PHK`. -/
def op_PHK (mc : Machine) : Machine :=
  push8 mc mc.regs.PBR

/-- `CPU65c816::op_PLA`. -/
def op_PLA (mc : Machine) : Machine :=
  if isMemory8Bit mc.regs then
    let (value, mc) := pull8 mc
    let r := { mc.regs with A := (mc.regs.A &&& 0xFF00) ||| value }
    { mc with regs := updateNZ8 r value }
  else
    let (value, mc) := pull16 mc
    let r := { mc.regs with A := value }
    { mc with regs := updateNZ16 r r.A }

/-- `CPU65c816::op_PLX`. -/
def op_PLX (mc : Machine) : Machine :=
  if isIndex8Bit mc.regs then
    let (value, mc) := pull8 mc
    let r := { mc.regs with X := value }
    { mc with regs := updateNZ8 r (r.X &&& 0xFF) }
  else
    let (value, mc) := pull16 mc
    let r := { mc.regs with X := value }
    { mc with regs := updateNZ16 r r.X }

/-- `CPU65c816::op_PLY`. -/
def op_PLY (mc : Machine) : Machine :=
  if isIndex8Bit mc.regs then
    let (value, mc) := pull8 mc
    let r := { mc.regs with Y := value }
    { mc with regs := updateNZ8 r (r.Y &&& 0xFF) }
  else
    let (value, mc) := pull16 mc
    let r := { mc.regs with Y := value }
    { mc with regs := updateNZ16 r r.Y }

/-- `CPU65c816::op_PLP`: restores all of `P`; in emulation mode bits 4 and 5
are forced back to 1. -/
def op_PLP (mc : Machine) : Machine :=
  let (value, mc) := pull8 mc
  let p := if mc.regs.E then value ||| 0x30 else value
  { mc with regs := { mc.regs with P := p } }

/-- `CPU65c816::op_PLD`. -/
def op_PLD (mc : Machine) : Machine :=
  let (value, mc) := pull16 mc
  let r := { mc.regs with D := value }
  { mc with regs := updateNZ16 r r.D }

/-- `CPU65c816::op_PLB`. -/
def op_PLB (mc : Machine) : Machine :=
  let (value, mc) := pull8 mc
  let r := { mc.regs with DBR := value }
  { mc with regs := updateNZ8 r r.DBR }

/-! ## Arithmetic -/

/-- `CPU65c816::checkOverflow8`. -/
def checkOverflow8 (a b result : Nat) : Bool :=
  ((a ^^^ result) &&& (b ^^^ result) &&& 0x80) ≠ 0

/-- `CPU65c816::checkOverflow16`. -/
def checkOverflow16 (a b result : Nat) : Bool :=
  ((a ^^^ result) &&& (b ^^^ result) &&& 0x8000) ≠ 0

/-- `CPU65c816::op_ADC`: both the decimal and the binary branch of the source
perform the same binary addition (BCD is stubbed). -/
def op_ADC (mc : Machine) (address : Nat) : Machine :=
  if isMemory8Bit mc.regs then
    let operand := read8 mc.mem address
    let a := mc.regs.A &&& 0xFF
    let carry := if getFlag mc.regs FLAG_CARRY then 1 else 0
    let result := a + operand + carry
    let r := setFlag mc.regs FLAG_CARRY (result > 0xFF)
    let result8 := result &&& 0xFF
    let r := setFlag r FLAG_OVERFLOW (checkOverflow8 a operand result8)
    let r := { r with A := (r.A &&& 0xFF00) ||| result8 }
    { mc with regs := updateNZ8 r result8 }
  else
    let operand := read16 mc.mem address
    let a := mc.regs.A
    let carry := if getFlag mc.regs FLAG_CARRY then 1 else 0
    let result := a + operand + carry
    let r := setFlag mc.regs FLAG_CARRY (result > 0xFFFF)
    let result16 := result &&& 0xFFFF
    let r := setFlag r FLAG_OVERFLOW (checkOverflow16 a operand result16)
    let r := { r with A := result16 }
    { mc with regs := updateNZ16 r result16 }

/-- `CPU65c816::op_SBC` (binary branch, decimal flag clear):
`a - operand - (1 - carry)` is computed in `int` and converted to the
unsigned result type, i.e. taken modulo `2^16` (8-bit) or `2^32` (16-bit). -/
def op_SBC (mc : Machine) (address : Nat) : Machine :=
  if isMemory8Bit mc.regs then
    let operand := read8 mc.mem address
    let a := mc.regs.A &&& 0xFF
    let carry := if getFlag mc.regs FLAG_CARRY then 1 else 0
    if getFlag mc.regs FLAG_DECIMAL then
      let result := (((a : Int) - operand - (1 - carry)) % 0x10000).toNat
      let r := setFlag mc.regs FLAG_CARRY ((result &&& 0x100) = 0)
      let result8 := result &&& 0xFF
      let r := setFlag r FLAG_OVERFLOW (((a ^^^ operand) &&& (a ^^^ result) &&& 0x80) ≠ 0)
      let r := { r with A := (r.A &&& 0xFF00) ||| result8 }
      { mc with regs := updateNZ8 r result8 }
    else
      let result := (((a : Int) - operand - (1 - carry)) % 0x10000).toNat
      let r := setFlag mc.regs FLAG_CARRY ((result &&& 0x100) = 0)
      let result8 := result &&& 0xFF
      let r := setFlag r FLAG_OVERFLOW (((a ^^^ operand) &&& (a ^^^ result8) &&& 0x80) ≠ 0)
      let r := { r with A := (r.A &&& 0xFF00) ||| result8 }
      { mc with regs := updateNZ8 r result8 }
  else
    let operand := read16 mc.mem address
    let a := mc.regs.A
    let carry := if getFlag mc.regs FLAG_CARRY then 1 else 0
    let result := (((a : Int) - operand - (1 - carry)) % 0x100000000).toNat
    let r := setFlag mc.regs FLAG_CARRY ((result &&& 0x10000) = 0)
    let result16 := result &&& 0xFFFF
    let r := setFlag r FLAG_OVERFLOW (((a ^^^ operand) &&& (a ^^^ result16) &&& 0x8000) ≠ 0)
    let r := { r with A := result16 }
    { mc with regs := updateNZ16 r result16 }

/-! ## Increment / decrement -/

/-- `CPU65c816::op_INX`. -/
def op_INX (mc : Machine) : Machine :=
  if isIndex8Bit mc.regs then
    let r := { mc.regs with X := (mc.regs.X + 1) &&& 0xFF }
    { mc with regs := updateNZ8 r (r.X &&& 0xFF) }
  else
    let r := { mc.regs with X := (mc.regs.X + 1) &&& 0xFFFF }
    { mc with regs := updateNZ16 r r.X }

/-- `CPU65c816::op_INY`. -/
def op_INY (mc : Machine) : Machine :=
  if isIndex8Bit mc.regs then
    let r := { mc.regs with Y := (mc.regs.Y + 1) &&& 0xFF }
    { mc with regs := updateNZ8 r (r.Y &&& 0xFF) }
  else
    let r := { mc.regs with Y := (mc.regs.Y + 1) &&& 0xFFFF }
    { mc with regs := updateNZ16 r r.Y }

/-- `CPU65c816::op_DEX`: `(X - 1) & 0xFF` (or `& 0xFFFF`) on the `int`
promotion; `X + mask` has the same low bits as `X - 1`. -/
def op_DEX (mc : Machine) : Machine :=
  if isIndex8Bit mc.regs then
    let r := { mc.regs with X := (mc.regs.X + 0xFF) &&& 0xFF }
    { mc with regs := updateNZ8 r (r.X &&& 0xFF) }
  else
    let r := { mc.regs with X := (mc.regs.X + 0xFFFF) &&& 0xFFFF }
    { mc with regs := updateNZ16 r r.X }

/-- `CPU65c816::op_DEY`. -/
def op_DEY (mc : Machine) : Machine :=
  if isIndex8Bit mc.regs then
    let r := { mc.regs with Y := (mc.regs.Y + 0xFF) &&& 0xFF }
    { mc with regs := updateNZ8 r (r.Y &&& 0xFF) }
  else
    let r := { mc.regs with Y := (mc.regs.Y + 0xFFFF) &&& 0xFFFF }
    { mc with regs := updateNZ16 r r.Y }

/-- `CPU65c816::op_INC_A`. -/
def op_INC_A (mc : Machine) : Machine :=
  if isMemory8Bit mc.regs then
    let value := ((mc.regs.A &&& 0xFF) + 1) % 0x100
    let r := { mc.regs with A := (mc.regs.A &&& 0xFF00) ||| value }
    { mc with regs := updateNZ8 r value }
  else
    let r := { mc.regs with A := (mc.regs.A + 1) &&& 0xFFFF }
    { mc with regs := updateNZ16 r r.A }

/-- `CPU65c816::op_DEC_A`. -/
def op_DEC_A (mc : Machine) : Machine :=
  if isMemory8Bit mc.regs then
    let value := ((mc.regs.A &&& 0xFF) + 0xFF) % 0x100
    let r := { mc.regs with A := (mc.regs.A &&& 0xFF00) ||| value }
    { mc with regs := updateNZ8 r value }
  else
    let r := { mc.regs with A := (mc.regs.A + 0xFFFF) &&& 0xFFFF }
    { mc with regs := updateNZ16 r r.A }

/-- `CPU65c816::op_INC` (memory). -/
def op_INC (mc : Machine) (address : Nat) : Machine :=
  if isMemory8Bit mc.regs then
    let value := (read8 mc.mem address + 1) &&& 0xFF
    { regs := updateNZ8 mc.regs value, mem := write8 mc.mem address value }
  else
    let value := (read16 mc.mem address + 1) &&& 0xFFFF
    { regs := updateNZ16 mc.regs value, mem := write16 mc.mem address value }

/-- `CPU65c816::op_DEC` (memory). -/
def op_DEC (mc : Machine) (address : Nat) : Machine :=
  if isMemory8Bit mc.regs then
    let value := (read8 mc.mem address + 0xFF) &&& 0xFF
    { regs := updateNZ8 mc.regs value, mem := write8 mc.mem address value }
  else
    let value := (read16 mc.mem address + 0xFFFF) &&& 0xFFFF
    { regs := updateNZ16 mc.regs value, mem := write16 mc.mem address value }

/-! ## Logic -/

/-- `CPU65c816::op_AND`. -/
def op_AND (mc : Machine) (address : Nat) : Machine :=
  if isMemory8Bit mc.regs then
    let operand := read8 mc.mem address
    let result := (mc.regs.A &&& 0xFF) &&& operand
    let r := { mc.regs with A := (mc.regs.A &&& 0xFF00) ||| result }
    { mc with regs := updateNZ8 r result }
  else
    let operand := read16 mc.mem address
    let r := { mc.regs with A := mc.regs.A &&& operand }
    { mc with regs := updateNZ16 r r.A }

/-- `CPU65c816::op_ORA`. -/
def op_ORA (mc : Machine) (address : Nat) : Machine :=
  if isMemory8Bit mc.regs then
    let operand := read8 mc.mem address
    let result := (mc.regs.A &&& 0xFF) ||| operand
    let r := { mc.regs with A := (mc.regs.A &&& 0xFF00) ||| result }
    { mc with regs := updateNZ8 r result }
  else
    let operand := read16 mc.mem address
    let r := { mc.regs with A := mc.regs.A ||| operand }
    { mc with regs := updateNZ16 r r.A }

/-- `CPU65c816::op_EOR`. -/
def op_EOR (mc : Machine) (address : Nat) : Machine :=
  if isMemory8Bit mc.regs then
    let operand := read8 mc.mem address
    let result := (mc.regs.A &&& 0xFF) ^^^ operand
    let r := { mc.regs with A := (mc.regs.A &&& 0xFF00) ||| result }
    { mc with regs := updateNZ8 r result }
  else
    let operand := read16 mc.mem address
    let r := { mc.regs with A := mc.regs.A ^^^ operand }
    { mc with regs := updateNZ16 r r.A }

/-! ## Compares -/

/-- `CPU65c816::op_CMP`: `a - operand` in `int`, converted to the unsigned
result width. -/
def op_CMP (mc : Machine) (address : Nat) : Machine :=
  if isMemory8Bit mc.regs then
    let operand := read8 mc.mem address
    let a := mc.regs.A &&& 0xFF
    let result := (((a : Int) - operand) % 0x10000).toNat
    let r := setFlag mc.regs FLAG_CARRY (result < 0x100)
    let r := setFlag r FLAG_ZERO ((result &&& 0xFF) = 0)
    { mc with regs := setFlag r FLAG_NEGATIVE ((result &&& 0x80) ≠ 0) }
  else
    let operand := read16 mc.mem address
    let a := mc.regs.A
    let result := (((a : Int) - operand) % 0x100000000).toNat
    let r := setFlag mc.regs FLAG_CARRY (result < 0x10000)
    let r := setFlag r FLAG_ZERO ((result &&& 0xFFFF) = 0)
    { mc with regs := setFlag r FLAG_NEGATIVE ((result &&& 0x8000) ≠ 0) }

/-- `CPU65c816::op_CPX`. -/
def op_CPX (mc : Machine) (address : Nat) : Machine :=
  if isIndex8Bit mc.regs then
    let operand := read8 mc.mem address
    let x := mc.regs.X &&& 0xFF
    let result := (((x : Int) - operand) % 0x10000).toNat
    let r := setFlag mc.regs FLAG_CARRY (result < 0x100)
    let r := setFlag r FLAG_ZERO ((result &&& 0xFF) = 0)
    { mc with regs := setFlag r FLAG_NEGATIVE ((result &&& 0x80) ≠ 0) }
  else
    let operand := read16 mc.mem address
    let x := mc.regs.X
    let result := (((x : Int) - operand) % 0x100000000).toNat
    let r := setFlag mc.regs FLAG_CARRY (result < 0x10000)
    let r := setFlag r FLAG_ZERO ((result &&& 0xFFFF) = 0)
    { mc with regs := setFlag r FLAG_NEGATIVE ((result &&& 0x8000) ≠ 0) }

/-- `CPU65c816::op_CPY`. -/
def op_CPY (mc : Machine) (address : Nat) : Machine :=
  if isIndex8Bit mc.regs then
    let operand := read8 mc.mem address
    let y := mc.regs.Y &&& 0xFF
    let result := (((y : Int) - operand) % 0x10000).toNat
    let r := setFlag mc.regs FLAG_CARRY (result < 0x100)
    let r := setFlag r FLAG_ZERO ((result &&& 0xFF) = 0)
    { mc with regs := setFlag r FLAG_NEGATIVE ((result &&& 0x80) ≠ 0) }
  else
    let operand := read16 mc.mem address
    let y := mc.regs.Y
    let result := (((y : Int) - operand) % 0x100000000).toNat
    let r := setFlag mc.regs FLAG_CARRY (result < 0x10000)
    let r := setFlag r FLAG_ZERO ((result &&& 0xFFFF) = 0)
    { mc with regs := setFlag r FLAG_NEGATIVE ((result &&& 0x8000) ≠ 0) }

/-! ## Branches, jumps, returns -/

/-- `CPU65c816::branch`: fetch the signed 8-bit offset; when taken, add it to
the post-fetch PC (the `int8` sign extension becomes adding `0xFF00` for
offsets with bit 7 set). -/
def branch (mc : Machine) (condition : Bool) : Machine :=
  let (offset, mc) := fetchByte mc
  if condition then
    let delta := if offset < 0x80 then offset else offset + 0xFF00
    { mc with regs := { mc.regs with PC := (mc.regs.PC + delta) % 0x10000 } }
  else
    mc

/-- `CPU65c816::op_BEQ`. -/
def op_BEQ (mc : Machine) : Machine := branch mc (getFlag mc.regs FLAG_ZERO)

/-- `CPU65c816::op_BNE`. -/
def op_BNE (mc : Machine) : Machine := branch mc (!getFlag mc.regs FLAG_ZERO)

/-- `CPU65c816::op_BCS`. -/
def op_BCS (mc : Machine) : Machine := branch mc (getFlag mc.regs FLAG_CARRY)

/-- `CPU65c816::op_BCC`. -/
def op_BCC (mc : Machine) : Machine := branch mc (!getFlag mc.regs FLAG_CARRY)

/-- `CPU65c816::op_BMI`. -/
def op_BMI (mc : Machine) : Machine := branch mc (getFlag mc.regs FLAG_NEGATIVE)

/-- `CPU65c816::op_BPL`. -/
def op_BPL (mc : Machine) : Machine := branch mc (!getFlag mc.regs FLAG_NEGATIVE)

/-- `CPU65c816::op_BVS`. -/
def op_BVS (mc : Machine) : Machine := branch mc (getFlag mc.regs FLAG_OVERFLOW)

/-- `CPU65c816::op_BVC`. -/
def op_BVC (mc : Machine) : Machine := branch mc (!getFlag mc.regs FLAG_OVERFLOW)

/-- `CPU65c816::op_JMP`: PC from the low 16 bits, PBR from the bank byte. -/
def op_JMP (mc : Machine) (address : Nat) : Machine :=
  { mc with regs := { mc.regs with
      PC := address &&& 0xFFFF,
      PBR := (address >>> 16) &&& 0xFF } }

/-- `CPU65c816::op_JSR`: push `PC - 1`, then jump within the current bank. -/
def op_JSR (mc : Machine) (address : Nat) : Machine :=
  let returnAddress := (mc.regs.PC + 0xFFFF) % 0x10000
  let mc := push16 mc returnAddress
  { mc with regs := { mc.regs with PC := address &&& 0xFFFF } }

/-- `CPU65c816::op_RTS`. -/
def op_RTS (mc : Machine) : Machine :=
  let (returnAddress, mc) := pull16 mc
  { mc with regs := { mc.regs with PC := (returnAddress + 1) % 0x10000 } }

/-- `CPU65c816::op_RTI`. -/
def op_RTI (mc : Machine) : Machine :=
  let (p, mc) := pull8 mc
  let p := if mc.regs.E then p ||| 0x30 else p
  let mc := { mc with regs := { mc.regs with P := p } }
  let (pc, mc) := pull16 mc
  let mc := { mc with regs := { mc.regs with PC := pc } }
  if !mc.regs.E then
    let (pbr, mc) := pull8 mc
    { mc with regs := { mc.regs with PBR := pbr } }
  else
    mc

/-! ## Bit test, shifts and rotates -/

/-- `CPU65c816::op_BIT`. -/
def op_BIT (mc : Machine) (address : Nat) : Machine :=
  if isMemory8Bit mc.regs then
    let operand := read8 mc.mem address
    let result := (mc.regs.A &&& 0xFF) &&& operand
    let r := setFlag mc.regs FLAG_ZERO (result = 0)
    let r := setFlag r FLAG_NEGATIVE ((operand &&& 0x80) ≠ 0)
    { mc with regs := setFlag r FLAG_OVERFLOW ((operand &&& 0x40) ≠ 0) }
  else
    let operand := read16 mc.mem address
    let result := mc.regs.A &&& operand
    let r := setFlag mc.regs FLAG_ZERO (result = 0)
    let r := setFlag r FLAG_NEGATIVE ((operand &&& 0x8000) ≠ 0)
    { mc with regs := setFlag r FLAG_OVERFLOW ((operand &&& 0x4000) ≠ 0) }

/-- `CPU65c816::op_ASL` (memory). -/
def op_ASL (mc : Machine) (address : Nat) : Machine :=
  if isMemory8Bit mc.regs then
    let value := read8 mc.mem address
    let r := setFlag mc.regs FLAG_CARRY ((value &&& 0x80) ≠ 0)
    let value := (value <<< 1) &&& 0xFF
    { regs := updateNZ8 r value, mem := write8 mc.mem address value }
  else
    let value := read16 mc.mem address
    let r := setFlag mc.regs FLAG_CARRY ((value &&& 0x8000) ≠ 0)
    let value := (value <<< 1) &&& 0xFFFF
    { regs := updateNZ16 r value, mem := write16 mc.mem address value }

/-- `CPU65c816::op_ASL_A`. -/
def op_ASL_A (mc : Machine) : Machine :=
  if isMemory8Bit mc.regs then
    let value := mc.regs.A &&& 0xFF
    let r := setFlag mc.regs FLAG_CARRY ((value &&& 0x80) ≠ 0)
    let value := (value <<< 1) &&& 0xFF
    let r := { r with A := (r.A &&& 0xFF00) ||| value }
    { mc with regs := updateNZ8 r value }
  else
    let r := setFlag mc.regs FLAG_CARRY ((mc.regs.A &&& 0x8000) ≠ 0)
    let r := { r with A := (r.A <<< 1) &&& 0xFFFF }
    { mc with regs := updateNZ16 r r.A }

/-- `CPU65c816::op_LSR` (memory). -/
def op_LSR (mc : Machine) (address : Nat) : Machine :=
  if isMemory8Bit mc.regs then
    let value := read8 mc.mem address
    let r := setFlag mc.regs FLAG_CARRY ((value &&& 0x01) ≠ 0)
    let value := value >>> 1
    { regs := updateNZ8 r value, mem := write8 mc.mem address value }
  else
    let value := read16 mc.mem address
    let r := setFlag mc.regs FLAG_CARRY ((value &&& 0x01) ≠ 0)
    let value := value >>> 1
    { regs := updateNZ16 r value, mem := write16 mc.mem address value }

/-- `CPU65c816::op_LSR_A`. -/
def op_LSR_A (mc : Machine) : Machine :=
  if isMemory8Bit mc.regs then
    let value := mc.regs.A &&& 0xFF
    let r := setFlag mc.regs FLAG_CARRY ((value &&& 0x01) ≠ 0)
    let value := value >>> 1
    let r := { r with A := (r.A &&& 0xFF00) ||| value }
    { mc with regs := updateNZ8 r value }
  else
    let r := setFlag mc.regs FLAG_CARRY ((mc.regs.A &&& 0x01) ≠ 0)
    let r := { r with A := r.A >>> 1 }
    { mc with regs := updateNZ16 r r.A }

/-- `CPU65c816::op_ROL` (memory). -/
def op_ROL (mc : Machine) (address : Nat) : Machine :=
  if isMemory8Bit mc.regs then
    let value := read8 mc.mem address
    let oldCarry := getFlag mc.regs FLAG_CARRY
    let r := setFlag mc.regs FLAG_CARRY ((value &&& 0x80) ≠ 0)
    let value := ((value <<< 1) &&& 0xFF) ||| (if oldCarry then 1 else 0)
    { regs := updateNZ8 r value, mem := write8 mc.mem address value }
  else
    let value := read16 mc.mem address
    let oldCarry := getFlag mc.regs FLAG_CARRY
    let r := setFlag mc.regs FLAG_CARRY ((value &&& 0x8000) ≠ 0)
    let value := ((value <<< 1) &&& 0xFFFF) ||| (if oldCarry then 1 else 0)
    { regs := updateNZ16 r value, mem := write16 mc.mem address value }

/-- `CPU65c816::op_ROL_A`. -/
def op_ROL_A (mc : Machine) : Machine :=
  if isMemory8Bit mc.regs then
    let value := mc.regs.A &&& 0xFF
    let oldCarry := getFlag mc.regs FLAG_CARRY
    let r := setFlag mc.regs FLAG_CARRY ((value &&& 0x80) ≠ 0)
    let value := ((value <<< 1) &&& 0xFF) ||| (if oldCarry then 1 else 0)
    let r := { r with A := (r.A &&& 0xFF00) ||| value }
    { mc with regs := updateNZ8 r value }
  else
    let oldCarry := getFlag mc.regs FLAG_CARRY
    let r := setFlag mc.regs FLAG_CARRY ((mc.regs.A &&& 0x8000) ≠ 0)
    let r := { r with A := ((r.A <<< 1) &&& 0xFFFF) ||| (if oldCarry then 1 else 0) }
    { mc with regs := updateNZ16 r r.A }

/-- `CPU65c816::op_ROR` (memory). -/
def op_ROR (mc : Machine) (address : Nat) : Machine :=
  if isMemory8Bit mc.regs then
    let value := read8 mc.mem address
    let oldCarry := getFlag mc.regs FLAG_CARRY
    let r := setFlag mc.regs FLAG_CARRY ((value &&& 0x01) ≠ 0)
    let value := (value >>> 1) ||| (if oldCarry then 0x80 else 0)
    { regs := updateNZ8 r value, mem := write8 mc.mem address value }
  else
    let value := read16 mc.mem address
    let oldCarry := getFlag mc.regs FLAG_CARRY
    let r := setFlag mc.regs FLAG_CARRY ((value &&& 0x01) ≠ 0)
    let value := (value >>> 1) ||| (if oldCarry then 0x8000 else 0)
    { regs := updateNZ16 r value, mem := write16 mc.mem address value }

/-- `CPU65c816::op_ROR_A`. -/
def op_ROR_A (mc : Machine) : Machine :=
  if isMemory8Bit mc.regs then
    let value := mc.regs.A &&& 0xFF
    let oldCarry := getFlag mc.regs FLAG_CARRY
    let r := setFlag mc.regs FLAG_CARRY ((value &&& 0x01) ≠ 0)
    let value := (value >>> 1) ||| (if oldCarry then 0x80 else 0)
    let r := { r with A := (r.A &&& 0xFF00) ||| value }
    { mc with regs := updateNZ8 r value }
  else
    let oldCarry := getFlag mc.regs FLAG_CARRY
    let r := setFlag mc.regs FLAG_CARRY ((mc.regs.A &&& 0x01) ≠ 0)
    let r := { r with A := (r.A >>> 1) ||| (if oldCarry then 0x8000 else 0) }
    { mc with regs := updateNZ16 r r.A }

/-! ## Flag manipulation and mode exchange -/

/-- `CPU65c816::op_CLC`. -/
def op_CLC (mc : Machine) : Machine := { mc with regs := setFlag mc.regs FLAG_CARRY false }

/-- `CPU65c816::op_SEC`. -/
def op_SEC (mc : Machine) : Machine := { mc with regs := setFlag mc.regs FLAG_CARRY true }

/-- `CPU65c816::op_CLI`. -/
def op_CLI (mc : Machine) : Machine := { mc with regs := setFlag mc.regs FLAG_IRQ_DISABLE false }

/-- `CPU65c816::op_SEI`. -/
def op_SEI (mc : Machine) : Machine := { mc with regs := setFlag mc.regs FLAG_IRQ_DISABLE true }

/-- `CPU65c816::op_CLV`. -/
def op_CLV (mc : Machine) : Machine := { mc with regs := setFlag mc.regs FLAG_OVERFLOW false }

/-- `CPU65c816::op_CLD`. -/
def op_CLD (mc : Machine) : Machine := { mc with regs := setFlag mc.regs FLAG_DECIMAL false }

/-- `CPU65c816::op_SED`. -/
def op_SED (mc : Machine) : Machine := { mc with regs := setFlag mc.regs FLAG_DECIMAL true }

/-- `CPU65c816::op_REP`: clear the masked bits; in emulation mode bits 4 and 5
are removed from the mask first. -/
def op_REP (mc : Machine) : Machine :=
  let (mask, mc) := fetchByte mc
  let mask := if mc.regs.E then mask &&& (0xFF ^^^ 0x30) else mask
  { mc with regs := { mc.regs with P := mc.regs.P &&& (0xFF ^^^ mask) } }

/-- `CPU65c816::op_SEP`: set the masked bits; in emulation mode bits 4 and 5
are forced on afterwards. -/
def op_SEP (mc : Machine) : Machine :=
  let (mask, mc) := fetchByte mc
  let p := mc.regs.P ||| mask
  let p := if mc.regs.E then p ||| 0x30 else p
  { mc with regs := { mc.regs with P := p } }

/-- `CPU65c816::op_XCE`: swap C and E; entering emulation mode forces M=X=1,
zeroes the X/Y high bytes and clamps SP into page 1. -/
def op_XCE (mc : Machine) : Machine :=
  let oldCarry := getFlag mc.regs FLAG_CARRY
  let oldEmulation := mc.regs.E
  let r := setFlag mc.regs FLAG_CARRY oldEmulation
  let r := { r with E := oldCarry }
  if r.E then
    { mc with regs := { r with
        P := r.P ||| 0x30,
        X := r.X &&& 0xFF,
        Y := r.Y &&& 0xFF,
        SP := 0x0100 ||| (r.SP &&& 0xFF) } }
  else
    { mc with regs := r }

/-! ## Test-and-set / test-and-reset -/

/-- `CPU65c816::op_TSB`: `~` on the promoted `int` then the `uint8` store is
the 8-bit complement (not needed here: TSB only ORs). -/
def op_TSB (mc : Machine) (address : Nat) : Machine :=
  if isMemory8Bit mc.regs then
    let value := read8 mc.mem address
    let a := mc.regs.A &&& 0xFF
    let r := setFlag mc.regs FLAG_ZERO ((a &&& value) = 0)
    let value := value ||| a
    { regs := r, mem := write8 mc.mem address value }
  else
    let value := read16 mc.mem address
    let a := mc.regs.A
    let r := setFlag mc.regs FLAG_ZERO ((a &&& value) = 0)
    let value := value ||| a
    { regs := r, mem := write16 mc.mem address value }

/-- `CPU65c816::op_TRB`: `value &= ~a` with the complement taken at the
stored width. -/
def op_TRB (mc : Machine) (address : Nat) : Machine :=
  if isMemory8Bit mc.regs then
    let value := read8 mc.mem address
    let a := mc.regs.A &&& 0xFF
    let r := setFlag mc.regs FLAG_ZERO ((a &&& value) = 0)
    let value := value &&& (0xFF ^^^ a)
    { regs := r, mem := write8 mc.mem address value }
  else
    let value := read16 mc.mem address
    let a := mc.regs.A
    let r := setFlag mc.regs FLAG_ZERO ((a &&& value) = 0)
    let value := value &&& (0xFFFF ^^^ a)
    { regs := r, mem := write16 mc.mem address value }

/-! ## Block moves -/

/-- `CPU65c816::op_MVP`: copy one byte `[srcBank:X] → [dstBank:Y]`, decrement
X and Y, decrement A (with wrap to 0xFFFF), rewind PC by 3 when not done, and
set DBR to the destination bank. -/
def op_MVP (mc : Machine) : Machine :=
  let (destBank, mc) := fetchByte mc
  let (srcBank, mc) := fetchByte mc
  let srcAddr := (srcBank <<< 16) ||| mc.regs.X
  let destAddr := (destBank <<< 16) ||| mc.regs.Y
  let data := read8 mc.mem srcAddr
  let mc := { mc with mem := write8 mc.mem destAddr data }
  let r : Registers := { mc.regs with
      X := (mc.regs.X + 0xFFFF) &&& 0xFFFF,
      Y := (mc.regs.Y + 0xFFFF) &&& 0xFFFF }
  let r : Registers :=
    if r.A = 0 then
      { r with A := 0xFFFF }
    else
      { r with A := (r.A - 1) &&& 0xFFFF, PC := (r.PC + 0xFFFD) % 0x10000 }
  { mc with regs := { r with DBR := destBank } }

/-- `CPU65c816::op_MVN`: as `op_MVP` but incrementing X and Y. -/
def op_MVN (mc : Machine) : Machine :=
  let (destBank, mc) := fetchByte mc
  let (srcBank, mc) := fetchByte mc
  let srcAddr := (srcBank <<< 16) ||| mc.regs.X
  let destAddr := (destBank <<< 16) ||| mc.regs.Y
  let data := read8 mc.mem srcAddr
  let mc := { mc with mem := write8 mc.mem destAddr data }
  let r : Registers := { mc.regs with
      X := (mc.regs.X + 1) &&& 0xFFFF,
      Y := (mc.regs.Y + 1) &&& 0xFFFF }
  let r : Registers :=
    if r.A = 0 then
      { r with A := 0xFFFF }
    else
      { r with A := (r.A - 1) &&& 0xFFFF, PC := (r.PC + 0xFFFD) % 0x10000 }
  { mc with regs := { r with DBR := destBank } }

/-! ## Interrupt and system instructions -/

/-- `CPU65c816::op_BRK`. -/
def op_BRK (mc : Machine) : Machine :=
  let (_, mc) := fetchByte mc
  if mc.regs.E then
    let mc := push16 mc mc.regs.PC
    let mc := push8 mc (mc.regs.P ||| 0x10)
    let mc := { mc with regs := setFlag mc.regs FLAG_IRQ_DISABLE true }
    let mc := { mc with regs := setFlag mc.regs FLAG_DECIMAL false }
    { mc with regs := { mc.regs with PC := read16 mc.mem 0xFFFE, PBR := 0 } }
  else
    let mc := push8 mc mc.regs.PBR
    let mc := push16 mc mc.regs.PC
    let mc := push8 mc mc.regs.P
    let mc := { mc with regs := setFlag mc.regs FLAG_IRQ_DISABLE true }
    let mc := { mc with regs := setFlag mc.regs FLAG_DECIMAL false }
    { mc with regs := { mc.regs with PC := read16 mc.mem 0xFFE6, PBR := 0 } }

/-- `CPU65c816::op_COP`. -/
def op_COP (mc : Machine) : Machine :=
  let (_, mc) := fetchByte mc
  if mc.regs.E then
    let mc := push16 mc mc.regs.PC
    let mc := push8 mc mc.regs.P
    let mc := { mc with regs := setFlag mc.regs FLAG_IRQ_DISABLE true }
    let mc := { mc with regs := setFlag mc.regs FLAG_DECIMAL false }
    { mc with regs := { mc.regs with PC := read16 mc.mem 0xFFF4, PBR := 0 } }
  else
    let mc := push8 mc mc.regs.PBR
    let mc := push16 mc mc.regs.PC
    let mc := push8 mc mc.regs.P
    let mc := { mc with regs := setFlag mc.regs FLAG_IRQ_DISABLE true }
    let mc := { mc with regs := setFlag mc.regs FLAG_DECIMAL false }
    { mc with regs := { mc.regs with PC := read16 mc.mem 0xFFE4, PBR := 0 } }

/-- `CPU65c816::op_WDM`: consume the reserved byte. -/
def op_WDM (mc : Machine) : Machine :=
  let (_, mc) := fetchByte mc
  mc

/-- `CPU65c816::op_STP`: stay at the STP instruction (`PC -= 1`). -/
def op_STP (mc : Machine) : Machine :=
  { mc with regs := { mc.regs with PC := (mc.regs.PC + 0xFFFF) % 0x10000 } }

/-- `CPU65c816::op_WAI`: stay at the WAI instruction (`PC -= 1`). -/
def op_WAI (mc : Machine) : Machine :=
  { mc with regs := { mc.regs with PC := (mc.regs.PC + 0xFFFF) % 0x10000 } }

set_option maxRecDepth 8192 in
/-- `CPU65c816::decodeAndExecute`: the opcode dispatch `switch`, in source
order; the C++ `switch` on distinct cases is an equality chain here.  The
default case treats unknown opcodes as a 2-cycle no-op. -/
def decodeAndExecute (opcode : Nat) (mc : Machine) : Machine × Nat :=
  if opcode = 0xEA then
    (op_NOP mc, 2)
  else if opcode = 0xA9 then
    if isMemory8Bit mc.regs then
      let (value, mc) := fetchByte mc
      let r := { mc.regs with A := (mc.regs.A &&& 0xFF00) ||| value }
      ({ mc with regs := updateNZ8 r value }, 2)
    else
      let (value, mc) := fetchWord mc
      let r := { mc.regs with A := value }
      ({ mc with regs := updateNZ16 r value }, 3)
  else if opcode = 0xAA then
    (op_TAX mc, 2)
  else if opcode = 0xA8 then
    (op_TAY mc, 2)
  else if opcode = 0x8A then
    (op_TXA mc, 2)
  else if opcode = 0x98 then
    (op_TYA mc, 2)
  else if opcode = 0xBA then
    (op_TSX mc, 2)
  else if opcode = 0x9A then
    (op_TXS mc, 2)
  else if opcode = 0x5B then
    (op_TCD mc, 2)
  else if opcode = 0x7B then
    (op_TDC mc, 2)
  else if opcode = 0x1B then
    (op_TCS mc, 2)
  else if opcode = 0x3B then
    (op_TSC mc, 2)
  else if opcode = 0x48 then
    let mc := op_PHA mc
    (mc, if isMemory8Bit mc.regs then 3 else 4)
  else if opcode = 0xDA then
    let mc := op_PHX mc
    (mc, if isIndex8Bit mc.regs then 3 else 4)
  else if opcode = 0x5A then
    let mc := op_PHY mc
    (mc, if isIndex8Bit mc.regs then 3 else 4)
  else if opcode = 0x08 then
    (op_PHP mc, 3)
  else if opcode = 0x0B then
    (op_PHD mc, 4)
  else if opcode = 0x8B then
    (op_PHB mc, 3)
  else if opcode = 0x4B then
    (op_PHK mc, 3)
  else if opcode = 0x68 then
    let mc := op_PLA mc
    (mc, if isMemory8Bit mc.regs then 4 else 5)
  else if opcode = 0xFA then
    let mc := op_PLX mc
    (mc, if isIndex8Bit mc.regs then 4 else 5)
  else if opcode = 0x7A then
    let mc := op_PLY mc
    (mc, if isIndex8Bit mc.regs then 4 else 5)
  else if opcode = 0x28 then
    (op_PLP mc, 4)
  else if opcode = 0x2B then
    (op_PLD mc, 5)
  else if opcode = 0xAB then
    (op_PLB mc, 4)
  else if opcode = 0x69 then
    if isMemory8Bit mc.regs then
      let (address, mc) := getAddress_Immediate mc
      (op_ADC mc address, 2)
    else
      let (address, mc) := getAddress_Immediate mc
      (op_ADC mc address, 3)
  else if opcode = 0x65 then
    let (address, mc) := getAddress_Direct mc
    let mc := op_ADC mc address
    (mc, if isMemory8Bit mc.regs then 3 else 4)
  else if opcode = 0x75 then
    let (address, mc) := getAddress_DirectX mc
    let mc := op_ADC mc address
    (mc, if isMemory8Bit mc.regs then 4 else 5)
  else if opcode = 0x6D then
    let (address, mc) := getAddress_Absolute mc
    let mc := op_ADC mc address
    (mc, if isMemory8Bit mc.regs then 4 else 5)
  else if opcode = 0x7D then
    let (address, mc) := getAddress_AbsoluteX mc
    let mc := op_ADC mc address
    (mc, if isMemory8Bit mc.regs then 4 else 5)
  else if opcode = 0x79 then
    let (address, mc) := getAddress_AbsoluteY mc
    let mc := op_ADC mc address
    (mc, if isMemory8Bit mc.regs then 4 else 5)
  else if opcode = 0x61 then
    let (address, mc) := getAddress_IndirectX mc
    let mc := op_ADC mc address
    (mc, if isMemory8Bit mc.regs then 6 else 7)
  else if opcode = 0x71 then
    let (address, mc) := getAddress_IndirectY mc
    let mc := op_ADC mc address
    (mc, if isMemory8Bit mc.regs then 5 else 6)
  else if opcode = 0xE9 then
    if isMemory8Bit mc.regs then
      let (address, mc) := getAddress_Immediate mc
      (op_SBC mc address, 2)
    else
      let (address, mc) := getAddress_Immediate mc
      (op_SBC mc address, 3)
  else if opcode = 0xE5 then
    let (address, mc) := getAddress_Direct mc
    let mc := op_SBC mc address
    (mc, if isMemory8Bit mc.regs then 3 else 4)
  else if opcode = 0xF5 then
    let (address, mc) := getAddress_DirectX mc
    let mc := op_SBC mc address
    (mc, if isMemory8Bit mc.regs then 4 else 5)
  else if opcode = 0xED then
    let (address, mc) := getAddress_Absolute mc
    let mc := op_SBC mc address
    (mc, if isMemory8Bit mc.regs then 4 else 5)
  else if opcode = 0xFD then
    let (address, mc) := getAddress_AbsoluteX mc
    let mc := op_SBC mc address
    (mc, if isMemory8Bit mc.regs then 4 else 5)
  else if opcode = 0xF9 then
    let (address, mc) := getAddress_AbsoluteY mc
    let mc := op_SBC mc address
    (mc, if isMemory8Bit mc.regs then 4 else 5)
  else if opcode = 0xE1 then
    let (address, mc) := getAddress_IndirectX mc
    let mc := op_SBC mc address
    (mc, if isMemory8Bit mc.regs then 6 else 7)
  else if opcode = 0xF1 then
    let (address, mc) := getAddress_IndirectY mc
    let mc := op_SBC mc address
    (mc, if isMemory8Bit mc.regs then 5 else 6)
  else if opcode = 0xE8 then
    (op_INX mc, 2)
  else if opcode = 0xC8 then
    (op_INY mc, 2)
  else if opcode = 0xCA then
    (op_DEX mc, 2)
  else if opcode = 0x88 then
    (op_DEY mc, 2)
  else if opcode = 0xA2 then
    if isIndex8Bit mc.regs then
      let (address, mc) := getAddress_Immediate mc
      (op_LDX mc address, 2)
    else
      let (address, mc) := getAddress_Immediate mc
      (op_LDX mc address, 3)
  else if opcode = 0xAD then
    let (address, mc) := getAddress_Absolute mc
    let mc := op_LDA mc address
    (mc, if isMemory8Bit mc.regs then 4 else 5)
  else if opcode = 0xBD then
    let (address, mc) := getAddress_AbsoluteX mc
    let mc := op_LDA mc address
    (mc, if isMemory8Bit mc.regs then 4 else 5)
  else if opcode = 0x9D then
    let (address, mc) := getAddress_AbsoluteX mc
    let mc := op_STA mc address
    (mc, if isMemory8Bit mc.regs then 5 else 6)
  else if opcode = 0xA6 then
    let (address, mc) := getAddress_Direct mc
    let mc := op_LDX mc address
    (mc, if isIndex8Bit mc.regs then 3 else 4)
  else if opcode = 0xB6 then
    let (address, mc) := getAddress_DirectY mc
    let mc := op_LDX mc address
    (mc, if isIndex8Bit mc.regs then 4 else 5)
  else if opcode = 0xAE then
    let (address, mc) := getAddress_Absolute mc
    let mc := op_LDX mc address
    (mc, if isIndex8Bit mc.regs then 4 else 5)
  else if opcode = 0xBE then
    let (address, mc) := getAddress_AbsoluteY mc
    let mc := op_LDX mc address
    (mc, if isIndex8Bit mc.regs then 4 else 5)
  else if opcode = 0xA0 then
    if isIndex8Bit mc.regs then
      let (address, mc) := getAddress_Immediate mc
      (op_LDY mc address, 2)
    else
      let (address, mc) := getAddress_Immediate mc
      (op_LDY mc address, 3)
  else if opcode = 0xA4 then
    let (address, mc) := getAddress_Direct mc
    let mc := op_LDY mc address
    (mc, if isIndex8Bit mc.regs then 3 else 4)
  else if opcode = 0xB4 then
    let (address, mc) := getAddress_DirectX mc
    let mc := op_LDY mc address
    (mc, if isIndex8Bit mc.regs then 4 else 5)
  else if opcode = 0xAC then
    let (address, mc) := getAddress_Absolute mc
    let mc := op_LDY mc address
    (mc, if isIndex8Bit mc.regs then 4 else 5)
  else if opcode = 0xBC then
    let (address, mc) := getAddress_AbsoluteX mc
    let mc := op_LDY mc address
    (mc, if isIndex8Bit mc.regs then 4 else 5)
  else if opcode = 0x86 then
    let (address, mc) := getAddress_Direct mc
    let mc := op_STX mc address
    (mc, if isIndex8Bit mc.regs then 3 else 4)
  else if opcode = 0x96 then
    let (address, mc) := getAddress_DirectY mc
    let mc := op_STX mc address
    (mc, if isIndex8Bit mc.regs then 4 else 5)
  else if opcode = 0x8E then
    let (address, mc) := getAddress_Absolute mc
    let mc := op_STX mc address
    (mc, if isIndex8Bit mc.regs then 4 else 5)
  else if opcode = 0x84 then
    let (address, mc) := getAddress_Direct mc
    let mc := op_STY mc address
    (mc, if isIndex8Bit mc.regs then 3 else 4)
  else if opcode = 0x94 then
    let (address, mc) := getAddress_DirectX mc
    let mc := op_STY mc address
    (mc, if isIndex8Bit mc.regs then 4 else 5)
  else if opcode = 0x8C then
    let (address, mc) := getAddress_Absolute mc
    let mc := op_STY mc address
    (mc, if isIndex8Bit mc.regs then 4 else 5)
  else if opcode = 0x8D then
    let (address, mc) := getAddress_Absolute mc
    let mc := op_STA mc address
    (mc, if isMemory8Bit mc.regs then 4 else 5)
  else if opcode = 0x85 then
    let (address, mc) := getAddress_Direct mc
    let mc := op_STA mc address
    (mc, if isMemory8Bit mc.regs then 3 else 4)
  else if opcode = 0x99 then
    let (address, mc) := getAddress_AbsoluteY mc
    let mc := op_STA mc address
    (mc, if isMemory8Bit mc.regs then 5 else 6)
  else if opcode = 0x1A then
    (op_INC_A mc, 2)
  else if opcode = 0xE6 then
    let (address, mc) := getAddress_Direct mc
    let mc := op_INC mc address
    (mc, if isMemory8Bit mc.regs then 5 else 6)
  else if opcode = 0xF6 then
    let (address, mc) := getAddress_DirectX mc
    let mc := op_INC mc address
    (mc, if isMemory8Bit mc.regs then 6 else 7)
  else if opcode = 0xEE then
    let (address, mc) := getAddress_Absolute mc
    let mc := op_INC mc address
    (mc, if isMemory8Bit mc.regs then 6 else 7)
  else if opcode = 0xFE then
    let (address, mc) := getAddress_AbsoluteX mc
    let mc := op_INC mc address
    (mc, if isMemory8Bit mc.regs then 7 else 8)
  else if opcode = 0x3A then
    (op_DEC_A mc, 2)
  else if opcode = 0xC6 then
    let (address, mc) := getAddress_Direct mc
    let mc := op_DEC mc address
    (mc, if isMemory8Bit mc.regs then 5 else 6)
  else if opcode = 0xD6 then
    let (address, mc) := getAddress_DirectX mc
    let mc := op_DEC mc address
    (mc, if isMemory8Bit mc.regs then 6 else 7)
  else if opcode = 0xCE then
    let (address, mc) := getAddress_Absolute mc
    let mc := op_DEC mc address
    (mc, if isMemory8Bit mc.regs then 6 else 7)
  else if opcode = 0xDE then
    let (address, mc) := getAddress_AbsoluteX mc
    let mc := op_DEC mc address
    (mc, if isMemory8Bit mc.regs then 7 else 8)
  else if opcode = 0x29 then
    if isMemory8Bit mc.regs then
      let (address, mc) := getAddress_Immediate mc
      (op_AND mc address, 2)
    else
      let (address, mc) := getAddress_Immediate mc
      (op_AND mc address, 3)
  else if opcode = 0x25 then
    let (address, mc) := getAddress_Direct mc
    let mc := op_AND mc address
    (mc, if isMemory8Bit mc.regs then 3 else 4)
  else if opcode = 0x35 then
    let (address, mc) := getAddress_DirectX mc
    let mc := op_AND mc address
    (mc, if isMemory8Bit mc.regs then 4 else 5)
  else if opcode = 0x2D then
    let (address, mc) := getAddress_Absolute mc
    let mc := op_AND mc address
    (mc, if isMemory8Bit mc.regs then 4 else 5)
  else if opcode = 0x3D then
    let (address, mc) := getAddress_AbsoluteX mc
    let mc := op_AND mc address
    (mc, if isMemory8Bit mc.regs then 4 else 5)
  else if opcode = 0x39 then
    let (address, mc) := getAddress_AbsoluteY mc
    let mc := op_AND mc address
    (mc, if isMemory8Bit mc.regs then 4 else 5)
  else if opcode = 0x21 then
    let (address, mc) := getAddress_IndirectX mc
    let mc := op_AND mc address
    (mc, if isMemory8Bit mc.regs then 6 else 7)
  else if opcode = 0x31 then
    let (address, mc) := getAddress_IndirectY mc
    let mc := op_AND mc address
    (mc, if isMemory8Bit mc.regs then 5 else 6)
  else if opcode = 0x09 then
    if isMemory8Bit mc.regs then
      let (address, mc) := getAddress_Immediate mc
      (op_ORA mc address, 2)
    else
      let (address, mc) := getAddress_Immediate mc
      (op_ORA mc address, 3)
  else if opcode = 0x05 then
    let (address, mc) := getAddress_Direct mc
    let mc := op_ORA mc address
    (mc, if isMemory8Bit mc.regs then 3 else 4)
  else if opcode = 0x15 then
    let (address, mc) := getAddress_DirectX mc
    let mc := op_ORA mc address
    (mc, if isMemory8Bit mc.regs then 4 else 5)
  else if opcode = 0x0D then
    let (address, mc) := getAddress_Absolute mc
    let mc := op_ORA mc address
    (mc, if isMemory8Bit mc.regs then 4 else 5)
  else if opcode = 0x1D then
    let (address, mc) := getAddress_AbsoluteX mc
    let mc := op_ORA mc address
    (mc, if isMemory8Bit mc.regs then 4 else 5)
  else if opcode = 0x19 then
    let (address, mc) := getAddress_AbsoluteY mc
    let mc := op_ORA mc address
    (mc, if isMemory8Bit mc.regs then 4 else 5)
  else if opcode = 0x01 then
    let (address, mc) := getAddress_IndirectX mc
    let mc := op_ORA mc address
    (mc, if isMemory8Bit mc.regs then 6 else 7)
  else if opcode = 0x11 then
    let (address, mc) := getAddress_IndirectY mc
    let mc := op_ORA mc address
    (mc, if isMemory8Bit mc.regs then 5 else 6)
  else if opcode = 0x49 then
    if isMemory8Bit mc.regs then
      let (address, mc) := getAddress_Immediate mc
      (op_EOR mc address, 2)
    else
      let (address, mc) := getAddress_Immediate mc
      (op_EOR mc address, 3)
  else if opcode = 0x45 then
    let (address, mc) := getAddress_Direct mc
    let mc := op_EOR mc address
    (mc, if isMemory8Bit mc.regs then 3 else 4)
  else if opcode = 0x55 then
    let (address, mc) := getAddress_DirectX mc
    let mc := op_EOR mc address
    (mc, if isMemory8Bit mc.regs then 4 else 5)
  else if opcode = 0x4D then
    let (address, mc) := getAddress_Absolute mc
    let mc := op_EOR mc address
    (mc, if isMemory8Bit mc.regs then 4 else 5)
  else if opcode = 0x5D then
    let (address, mc) := getAddress_AbsoluteX mc
    let mc := op_EOR mc address
    (mc, if isMemory8Bit mc.regs then 4 else 5)
  else if opcode = 0x59 then
    let (address, mc) := getAddress_AbsoluteY mc
    let mc := op_EOR mc address
    (mc, if isMemory8Bit mc.regs then 4 else 5)
  else if opcode = 0x41 then
    let (address, mc) := getAddress_IndirectX mc
    let mc := op_EOR mc address
    (mc, if isMemory8Bit mc.regs then 6 else 7)
  else if opcode = 0x51 then
    let (address, mc) := getAddress_IndirectY mc
    let mc := op_EOR mc address
    (mc, if isMemory8Bit mc.regs then 5 else 6)
  else if opcode = 0xC9 then
    if isMemory8Bit mc.regs then
      let (address, mc) := getAddress_Immediate mc
      (op_CMP mc address, 2)
    else
      let (address, mc) := getAddress_Immediate mc
      (op_CMP mc address, 3)
  else if opcode = 0xC5 then
    let (address, mc) := getAddress_Direct mc
    let mc := op_CMP mc address
    (mc, if isMemory8Bit mc.regs then 3 else 4)
  else if opcode = 0xD5 then
    let (address, mc) := getAddress_DirectX mc
    let mc := op_CMP mc address
    (mc, if isMemory8Bit mc.regs then 4 else 5)
  else if opcode = 0xCD then
    let (address, mc) := getAddress_Absolute mc
    let mc := op_CMP mc address
    (mc, if isMemory8Bit mc.regs then 4 else 5)
  else if opcode = 0xDD then
    let (address, mc) := getAddress_AbsoluteX mc
    let mc := op_CMP mc address
    (mc, if isMemory8Bit mc.regs then 4 else 5)
  else if opcode = 0xD9 then
    let (address, mc) := getAddress_AbsoluteY mc
    let mc := op_CMP mc address
    (mc, if isMemory8Bit mc.regs then 4 else 5)
  else if opcode = 0xC1 then
    let (address, mc) := getAddress_IndirectX mc
    let mc := op_CMP mc address
    (mc, if isMemory8Bit mc.regs then 6 else 7)
  else if opcode = 0xD1 then
    let (address, mc) := getAddress_IndirectY mc
    let mc := op_CMP mc address
    (mc, if isMemory8Bit mc.regs then 5 else 6)
  else if opcode = 0xE0 then
    if isIndex8Bit mc.regs then
      let (address, mc) := getAddress_Immediate mc
      (op_CPX mc address, 2)
    else
      let (address, mc) := getAddress_Immediate mc
      (op_CPX mc address, 3)
  else if opcode = 0xE4 then
    let (address, mc) := getAddress_Direct mc
    let mc := op_CPX mc address
    (mc, if isIndex8Bit mc.regs then 3 else 4)
  else if opcode = 0xEC then
    let (address, mc) := getAddress_Absolute mc
    let mc := op_CPX mc address
    (mc, if isIndex8Bit mc.regs then 4 else 5)
  else if opcode = 0xC0 then
    if isIndex8Bit mc.regs then
      let (address, mc) := getAddress_Immediate mc
      (op_CPY mc address, 2)
    else
      let (address, mc) := getAddress_Immediate mc
      (op_CPY mc address, 3)
  else if opcode = 0xC4 then
    let (address, mc) := getAddress_Direct mc
    let mc := op_CPY mc address
    (mc, if isIndex8Bit mc.regs then 3 else 4)
  else if opcode = 0xCC then
    let (address, mc) := getAddress_Absolute mc
    let mc := op_CPY mc address
    (mc, if isIndex8Bit mc.regs then 4 else 5)
  else if opcode = 0xF0 then
    (op_BEQ mc, 2)
  else if opcode = 0xD0 then
    (op_BNE mc, 2)
  else if opcode = 0xB0 then
    (op_BCS mc, 2)
  else if opcode = 0x90 then
    (op_BCC mc, 2)
  else if opcode = 0x30 then
    (op_BMI mc, 2)
  else if opcode = 0x10 then
    (op_BPL mc, 2)
  else if opcode = 0x70 then
    (op_BVS mc, 2)
  else if opcode = 0x50 then
    (op_BVC mc, 2)
  else if opcode = 0x4C then
    let (address, mc) := fetchWord mc
    let fullAddress := (mc.regs.PBR <<< 16) ||| address
    (op_JMP mc fullAddress, 3)
  else if opcode = 0x6C then
    let (pointer, mc) := fetchWord mc
    let pointerAddress := (mc.regs.DBR <<< 16) ||| pointer
    let target := read16 mc.mem pointerAddress
    let fullAddress := (mc.regs.PBR <<< 16) ||| target
    (op_JMP mc fullAddress, 5)
  else if opcode = 0x7C then
    let (pointer, mc) := fetchWord mc
    let indexedPointer := (pointer + mc.regs.X) % 0x10000
    let pointerAddress := (mc.regs.PBR <<< 16) ||| indexedPointer
    let target := read16 mc.mem pointerAddress
    let fullAddress := (mc.regs.PBR <<< 16) ||| target
    (op_JMP mc fullAddress, 6)
  else if opcode = 0x20 then
    let (address, mc) := fetchWord mc
    let fullAddress := (mc.regs.PBR <<< 16) ||| address
    (op_JSR mc fullAddress, 6)
  else if opcode = 0x60 then
    (op_RTS mc, 6)
  else if opcode = 0x40 then
    (op_RTI mc, 6)
  else if opcode = 0x24 then
    let (address, mc) := getAddress_Direct mc
    let mc := op_BIT mc address
    (mc, if isMemory8Bit mc.regs then 3 else 4)
  else if opcode = 0x2C then
    let (address, mc) := getAddress_Absolute mc
    let mc := op_BIT mc address
    (mc, if isMemory8Bit mc.regs then 4 else 5)
  else if opcode = 0x34 then
    let (address, mc) := getAddress_DirectX mc
    let mc := op_BIT mc address
    (mc, if isMemory8Bit mc.regs then 4 else 5)
  else if opcode = 0x3C then
    let (address, mc) := getAddress_AbsoluteX mc
    let mc := op_BIT mc address
    (mc, if isMemory8Bit mc.regs then 4 else 5)
  else if opcode = 0x89 then
    if isMemory8Bit mc.regs then
      let (address, mc) := getAddress_Immediate mc
      (op_BIT mc address, 2)
    else
      let (address, mc) := getAddress_Immediate mc
      (op_BIT mc address, 3)
  else if opcode = 0x0A then
    (op_ASL_A mc, 2)
  else if opcode = 0x06 then
    let (address, mc) := getAddress_Direct mc
    let mc := op_ASL mc address
    (mc, if isMemory8Bit mc.regs then 5 else 6)
  else if opcode = 0x16 then
    let (address, mc) := getAddress_DirectX mc
    let mc := op_ASL mc address
    (mc, if isMemory8Bit mc.regs then 6 else 7)
  else if opcode = 0x0E then
    let (address, mc) := getAddress_Absolute mc
    let mc := op_ASL mc address
    (mc, if isMemory8Bit mc.regs then 6 else 7)
  else if opcode = 0x1E then
    let (address, mc) := getAddress_AbsoluteX mc
    let mc := op_ASL mc address
    (mc, if isMemory8Bit mc.regs then 7 else 8)
  else if opcode = 0x4A then
    (op_LSR_A mc, 2)
  else if opcode = 0x46 then
    let (address, mc) := getAddress_Direct mc
    let mc := op_LSR mc address
    (mc, if isMemory8Bit mc.regs then 5 else 6)
  else if opcode = 0x56 then
    let (address, mc) := getAddress_DirectX mc
    let mc := op_LSR mc address
    (mc, if isMemory8Bit mc.regs then 6 else 7)
  else if opcode = 0x4E then
    let (address, mc) := getAddress_Absolute mc
    let mc := op_LSR mc address
    (mc, if isMemory8Bit mc.regs then 6 else 7)
  else if opcode = 0x5E then
    let (address, mc) := getAddress_AbsoluteX mc
    let mc := op_LSR mc address
    (mc, if isMemory8Bit mc.regs then 7 else 8)
  else if opcode = 0x2A then
    (op_ROL_A mc, 2)
  else if opcode = 0x26 then
    let (address, mc) := getAddress_Direct mc
    let mc := op_ROL mc address
    (mc, if isMemory8Bit mc.regs then 5 else 6)
  else if opcode = 0x36 then
    let (address, mc) := getAddress_DirectX mc
    let mc := op_ROL mc address
    (mc, if isMemory8Bit mc.regs then 6 else 7)
  else if opcode = 0x2E then
    let (address, mc) := getAddress_Absolute mc
    let mc := op_ROL mc address
    (mc, if isMemory8Bit mc.regs then 6 else 7)
  else if opcode = 0x3E then
    let (address, mc) := getAddress_AbsoluteX mc
    let mc := op_ROL mc address
    (mc, if isMemory8Bit mc.regs then 7 else 8)
  else if opcode = 0x6A then
    (op_ROR_A mc, 2)
  else if opcode = 0x66 then
    let (address, mc) := getAddress_Direct mc
    let mc := op_ROR mc address
    (mc, if isMemory8Bit mc.regs then 5 else 6)
  else if opcode = 0x76 then
    let (address, mc) := getAddress_DirectX mc
    let mc := op_ROR mc address
    (mc, if isMemory8Bit mc.regs then 6 else 7)
  else if opcode = 0x6E then
    let (address, mc) := getAddress_Absolute mc
    let mc := op_ROR mc address
    (mc, if isMemory8Bit mc.regs then 6 else 7)
  else if opcode = 0x7E then
    let (address, mc) := getAddress_AbsoluteX mc
    let mc := op_ROR mc address
    (mc, if isMemory8Bit mc.regs then 7 else 8)
  else if opcode = 0x18 then
    (op_CLC mc, 2)
  else if opcode = 0x38 then
    (op_SEC mc, 2)
  else if opcode = 0x58 then
    (op_CLI mc, 2)
  else if opcode = 0x78 then
    (op_SEI mc, 2)
  else if opcode = 0xB8 then
    (op_CLV mc, 2)
  else if opcode = 0xD8 then
    (op_CLD mc, 2)
  else if opcode = 0xF8 then
    (op_SED mc, 2)
  else if opcode = 0xC2 then
    (op_REP mc, 3)
  else if opcode = 0xE2 then
    (op_SEP mc, 3)
  else if opcode = 0xFB then
    (op_XCE mc, 2)
  else if opcode = 0x04 then
    let (address, mc) := getAddress_Direct mc
    let mc := op_TSB mc address
    (mc, if isMemory8Bit mc.regs then 5 else 6)
  else if opcode = 0x0C then
    let (address, mc) := getAddress_Absolute mc
    let mc := op_TSB mc address
    (mc, if isMemory8Bit mc.regs then 6 else 7)
  else if opcode = 0x14 then
    let (address, mc) := getAddress_Direct mc
    let mc := op_TRB mc address
    (mc, if isMemory8Bit mc.regs then 5 else 6)
  else if opcode = 0x1C then
    let (address, mc) := getAddress_Absolute mc
    let mc := op_TRB mc address
    (mc, if isMemory8Bit mc.regs then 6 else 7)
  else if opcode = 0x44 then
    (op_MVP mc, 7)
  else if opcode = 0x54 then
    (op_MVN mc, 7)
  else if opcode = 0x00 then
    let mc := op_BRK mc
    (mc, if mc.regs.E then 7 else 8)
  else if opcode = 0x02 then
    let mc := op_COP mc
    (mc, if mc.regs.E then 7 else 8)
  else if opcode = 0x42 then
    (op_WDM mc, 2)
  else if opcode = 0xDB then
    (op_STP mc, 3)
  else if opcode = 0xCB then
    (op_WAI mc, 3)
  else
    (mc, 2)

/-- `CPU65c816::executeInstruction`: fetch the opcode at `PBR:PC` and
dispatch; the consumed cycle count (also accumulated into the 64-bit
`totalCycles` counter by the source) is returned alongside the state. -/
def executeInstruction (mc : Machine) : Machine × Nat :=
  let (opcode, mc) := fetchByte mc
  decodeAndExecute opcode mc

/-! ## Concrete machines used by witnesses and counterexamples -/

/-- A 64 KiB ROM whose reset-address byte is the TSX opcode `0xBA`. -/
def memTSX : Memory :=
  { Memory.init with
    romSize := 0x10000,
    rom := fun i => if i = 0x8000 then 0xBA else 0xEA }

/-- The reset-state machine about to execute TSX. -/
def mcTSX : Machine := { regs := resetRegisters, mem := memTSX }

/-- A 64 KiB ROM whose reset-address byte is the TXS opcode `0x9A`. -/
def memTXS : Memory :=
  { Memory.init with
    romSize := 0x10000,
    rom := fun i => if i = 0x8000 then 0x9A else 0xEA }

/-- The reset-state machine about to execute TXS. -/
def mcTXS : Machine := { regs := resetRegisters, mem := memTXS }

/-- ROM holding `JMP ($1234)` (opcode `0x6C`) at the reset address, with WRAM
bank `0x7F` holding the pointer `0x3344` at offset `0x1234` and bank-0 WRAM
all zero. -/
def memJmpInd : Memory :=
  { Memory.init with
    romSize := 0x10000,
    rom := fun i =>
      if i = 0x8000 then 0x6C else if i = 0x8001 then 0x34
      else if i = 0x8002 then 0x12 else 0xEA,
    wram := fun i => if i = 0x11234 then 0x44 else if i = 0x11235 then 0x33 else 0 }

/-- Reset state with `DBR = 0x7F`, about to execute `JMP ($1234)`. -/
def mcJmpInd : Machine := { regs := { resetRegisters with DBR := 0x7F }, mem := memJmpInd }

/-- WRAM holding the operand word `0x8000` at offset `0x1000`. -/
def memAbsX : Memory :=
  { Memory.init with
    wram := fun i => if i = 0x1000 then 0x00 else if i = 0x1001 then 0x80 else 0 }

/-- State with `DBR = 0`, `X = 0`, `PC = 0x1000`, about to evaluate the
Absolute,X operand `0x8000`. -/
def mcAbsX : Machine := { regs := { resetRegisters with PC := 0x1000 }, mem := memAbsX }

/-- WRAM holding `LDX #imm` (opcode `0xA2`) at offset `0x1000` followed by the
bytes `0x05 0x07`. -/
def memLdxImm : Memory :=
  { Memory.init with
    wram := fun i =>
      if i = 0x1000 then 0xA2 else if i = 0x1001 then 0x05
      else if i = 0x1002 then 0x07 else 0 }

/-- Native-mode state with M=1 and X=0 (`P = 0x20`), about to execute
`LDX #imm`. -/
def mcLdxImm : Machine :=
  { regs := { resetRegisters with PC := 0x1000, P := 0x20, E := false }, mem := memLdxImm }

/-- A 128 KiB ROM whose byte at index `i` is the bit-16 "half" `i >>> 16`
(0 below 64 KiB, 1 above). -/
def memBigRom : Memory :=
  { Memory.init with romSize := 0x20000, rom := fun i => i >>> 16 }

/-- A 64 KiB ROM holding `MVN $01,$02` (opcode `0x54`) at the reset address. -/
def memMvn : Memory :=
  { Memory.init with
    romSize := 0x10000,
    rom := fun i =>
      if i = 0x8000 then 0x54 else if i = 0x8001 then 0x02
      else if i = 0x8002 then 0x01 else 0xEA }

/-- Reset state with `A = 3`, `X = 0x1000`, `Y = 0x2000`, about to execute
`MVN $01,$02`. -/
def mcMvn : Machine :=
  { regs := { resetRegisters with A := 3, X := 0x1000, Y := 0x2000 }, mem := memMvn }

/-- A 64 KiB ROM holding `MVP $01,$02` (opcode `0x44`) at the reset address. -/
def memMvp : Memory :=
  { Memory.init with
    romSize := 0x10000,
    rom := fun i =>
      if i = 0x8000 then 0x44 else if i = 0x8001 then 0x02
      else if i = 0x8002 then 0x01 else 0xEA }

/-- Reset state with `A = 3`, `X = 0x1000`, `Y = 0x2000`, about to execute
`MVP $01,$02`. -/
def mcMvp : Machine :=
  { regs := { resetRegisters with A := 3, X := 0x1000, Y := 0x2000 }, mem := memMvp }

/-- An 8-bit-mode (`M=1`) native state with `A = 0` over zeroed memory, used
to exercise the ADC/SBC round trip. -/
def mcAdcSbc : Machine :=
  { regs := { resetRegisters with P := 0x20, E := false, A := 0 }, mem := Memory.init }

/-- The ADC-then-SBC experiment of spec property 8.3: run `op_ADC` with the
carry flag preset to `c`, then `op_SBC` on the same operand address with the
carry flag preset to the complement `!c`. -/
def adcSbcRound (mc : Machine) (address : Nat) (c : Bool) : Machine :=
  let s1 := op_ADC { mc with regs := setFlag mc.regs FLAG_CARRY c } address
  op_SBC { s1 with regs := setFlag s1.regs FLAG_CARRY (!c) } address

/-! ## Arithmetic bridging lemmas for the bitwise operations -/

/-- `x &&& 0xFF` is `x % 2^8`. -/
theorem and_mask8 (x : Nat) : x &&& 0xFF = x % 0x100 :=
  Nat.and_pow_two_sub_one_eq_mod x 8

/-- `x &&& 0xFFFF` is `x % 2^16`. -/
theorem and_mask16 (x : Nat) : x &&& 0xFFFF = x % 0x10000 :=
  Nat.and_pow_two_sub_one_eq_mod x 16

/-- `x &&& 0xFFFFFF` is `x % 2^24`. -/
theorem and_mask24 (x : Nat) : x &&& 0xFFFFFF = x % 0x1000000 :=
  Nat.and_pow_two_sub_one_eq_mod x 24

/-- The `size_t` mask `n - 1` for a positive size that fits a `size_t`. -/
theorem usizeSub1_eq (n : Nat) (h : 0 < n) (h2 : n ≤ 2 ^ 63) :
    usizeSub1 n = n - 1 := by
  unfold usizeSub1
  omega

/-- Merging a bank into bits 16-23 over a 16-bit offset is addition. -/
theorem shiftLeft16_or_eq_add (b o : Nat) (h : o < 2 ^ 16) :
    (b <<< 16) ||| o = 2 ^ 16 * b + o := by
  rw [Nat.shiftLeft_eq, Nat.mul_comm]
  exact (Nat.mul_add_lt_is_or h b).symm

/-- Merging a high byte into bits 8-15 over a byte is addition. -/
theorem shiftLeft8_or_eq_add (b o : Nat) (h : o < 2 ^ 8) :
    (b <<< 8) ||| o = 2 ^ 8 * b + o := by
  rw [Nat.shiftLeft_eq, Nat.mul_comm]
  exact (Nat.mul_add_lt_is_or h b).symm

/-! ## Claim C10: the bus ignores address bits above bit 23 -/

/-- C10: for every address and byte value, the Bus read and write only depend
on the address modulo `2^24`: `read(a) = read(a mod 2^24)` and
`write(a, v) = write(a mod 2^24, v)`. -/
theorem claim_C10 : ∀ (m : Memory) (a v : Nat),
    m.read a = m.read (a % 0x1000000) ∧ m.write a v = m.write (a % 0x1000000) v := by
  intro m a v
  have hmask : (a % 0x1000000) &&& 0xFFFFFF = a &&& 0xFFFFFF := by
    rw [and_mask24, and_mask24]
    omega
  constructor
  · unfold Memory.read
    rw [hmask]
  · unfold Memory.write
    rw [hmask]

/-! ## Claim C7: loadROM -/

/-- C7: `loadROM` on an empty byte array returns `false` and leaves the whole
memory state unchanged; on a non-empty byte array it returns `true` and the
ROM region afterwards is exactly that byte array (and nothing else changed). -/
theorem claim_C7 : ∀ (m : Memory) (d : List Nat),
    Memory.loadROM m [] = (false, m) ∧
    (d ≠ [] →
      (Memory.loadROM m d).1 = true ∧
      (Memory.loadROM m d).2 =
        { m with romSize := d.length, rom := fun i => d.getD i 0 }) := by
  intro m d
  constructor
  · rfl
  · intro hd
    have hne : d.isEmpty = false := by
      cases d with
      | nil => exact absurd rfl hd
      | cons x xs => rfl
    unfold Memory.loadROM
    rw [hne]
    exact ⟨rfl, rfl⟩

/-- Witness for C7 at a concrete non-empty image. -/
theorem claim_C7_witness :
    (Memory.loadROM Memory.init [0xAB, 0xCD]).1 = true ∧
    (Memory.loadROM Memory.init [0xAB, 0xCD]).2 =
      { Memory.init with romSize := 2, rom := fun i => [0xAB, 0xCD].getD i 0 } := by
  have h := (claim_C7 Memory.init [0xAB, 0xCD]).2 (by decide)
  have h2 : ([0xAB, 0xCD] : List Nat).length = 2 := rfl
  rw [h2] at h
  exact h

/-! ## Claim C6: hardware-register window and ROM-write semantics -/

/-- Addresses whose bank is `0x00`-`0x3F` or `0x80`-`0xBF` and whose offset is
`0x2000`-`0x5FFF` decode to the hardware-register region. -/
theorem getRegion_hardware (a : Nat)
    (hbank : (a >>> 16) &&& 0xFF ≤ 0x3F ∨
      (0x80 ≤ (a >>> 16) &&& 0xFF ∧ (a >>> 16) &&& 0xFF ≤ 0xBF))
    (hoff : 0x2000 ≤ a &&& 0xFFFF ∧ a &&& 0xFFFF < 0x6000) :
    Memory.getRegion a = .HARDWARE := by
  unfold Memory.getRegion
  simp only []
  split_ifs with h1 h2 h3 <;> first | rfl | omega

/-- C6: reads in the hardware-register window return the open-bus value
`0xFF`, and writes to the hardware-register window or to any address decoding
to the ROM region leave the memory state (hence every byte of WRAM, SRAM and
ROM) unchanged.  `read` and `write` are total Lean functions, so the
operations never fail. -/
theorem claim_C6 : ∀ (m : Memory) (a v : Nat), a < 0x1000000 →
    (((a >>> 16) &&& 0xFF ≤ 0x3F ∨
        (0x80 ≤ (a >>> 16) &&& 0xFF ∧ (a >>> 16) &&& 0xFF ≤ 0xBF)) →
      (0x2000 ≤ a &&& 0xFFFF ∧ a &&& 0xFFFF < 0x6000) →
      m.read a = 0xFF ∧ m.write a v = m) ∧
    (Memory.getRegion a = .ROM → m.write a v = m) := by
  intro m a v ha
  have hmask : a &&& 0xFFFFFF = a := by
    rw [and_mask24]
    omega
  constructor
  · intro hbank hoff
    have hreg := getRegion_hardware a hbank hoff
    constructor
    · unfold Memory.read
      rw [hmask]
      unfold Memory.readMapped
      rw [hreg]
    · unfold Memory.write
      rw [hmask]
      unfold Memory.writeMapped
      rw [hreg]
  · intro hreg
    unfold Memory.write
    rw [hmask]
    unfold Memory.writeMapped
    rw [hreg]

/-- Witness for C6: a read of the hardware register `0x002100` on the fresh
memory returns `0xFF`, a write there is discarded, and a write to the
ROM-region address `0x00FFFF` is discarded. -/
theorem claim_C6_witness :
    Memory.init.read 0x002100 = 0xFF ∧
    Memory.init.write 0x002100 0x12 = Memory.init ∧
    Memory.init.write 0x00FFFF 0x12 = Memory.init := by
  have h := claim_C6 Memory.init 0x002100 0x12 (by decide)
  have h2 := (claim_C6 Memory.init 0x00FFFF 0x12 (by decide)).2 (by decide)
  have h3 := h.1 (by decide) (by decide)
  exact ⟨h3.1, h3.2, h2⟩

/-! ## Claim C5: ROM reads mask the full 24-bit address, not the offset -/

/-- Counterexample to C5 as stated: with a 128 KiB (`2^17`-byte) ROM, the two
ROM-region addresses `0x008000` and `0x018000` share the 16-bit offset
`0x8000` (so their offsets are congruent modulo the ROM size), yet they read
different ROM bytes, because the code masks the full 24-bit address. -/
theorem claim_C5_counterexample :
    Memory.getRegion 0x008000 = .ROM ∧
    Memory.getRegion 0x018000 = .ROM ∧
    memBigRom.romSize = 2 ^ 17 ∧
    (0x008000 : Nat) &&& 0xFFFF = (0x018000 : Nat) &&& 0xFFFF ∧
    memBigRom.read 0x008000 = 0 ∧
    memBigRom.read 0x018000 = 1 := by
  decide

/-- C5 (amended): for a power-of-two ROM size and a 24-bit address decoding
to the ROM region, the Bus read returns the ROM byte at index
`address mod romSize` where the mask is applied to the *full 24-bit address*;
when the ROM size is at most `2^16` this coincides with the claimed
`offset mod romSize`. -/
theorem claim_C5_amended : ∀ (m : Memory) (a k : Nat), a < 0x1000000 →
    Memory.getRegion a = .ROM → m.romSize = 2 ^ k → k ≤ 24 →
    m.read a = m.rom (a % 2 ^ k) := by
  intro m a k ha hreg hsize hk
  have hmask : a &&& 0xFFFFFF = a := by
    rw [and_mask24]
    omega
  have hpos : 0 < 2 ^ k := Nat.pos_pow_of_pos k (by norm_num)
  have hle : (2 : Nat) ^ k ≤ 2 ^ 63 :=
    Nat.pow_le_pow_right (by norm_num) (by omega)
  unfold Memory.read
  rw [hmask]
  unfold Memory.readMapped
  rw [hreg, hsize, usizeSub1_eq _ hpos hle,
    Nat.and_pow_two_sub_one_eq_mod]
  rw [if_pos (Nat.mod_lt a hpos)]

/-- Witness for C5 (amended) at the 128 KiB ROM and address `0x018000`. -/
theorem claim_C5_amended_witness :
    memBigRom.read 0x018000 = memBigRom.rom (0x018000 % 2 ^ 17) := by
  exact claim_C5_amended memBigRom 0x018000 17 (by decide) (by decide) (by decide)
    (by decide)

/-! ## Claim C9: the MVN/MVP block moves -/

/-- Dispatching opcode `0x54` runs `op_MVN` for 7 cycles. -/
theorem dispatch_MVN (mc : Machine) : decodeAndExecute 0x54 mc = (op_MVN mc, 7) := rfl

/-- Dispatching opcode `0x44` runs `op_MVP` for 7 cycles. -/
theorem dispatch_MVP (mc : Machine) : decodeAndExecute 0x44 mc = (op_MVP mc, 7) := rfl

set_option maxRecDepth 8192 in
/-- C9: one execution of MVN (opcode `0x54`) with destination-bank byte at
`PBR:PC+1` and source-bank byte at `PBR:PC+2` copies exactly one byte from
`srcBank:X` to `dstBank:Y`, increments X and Y modulo `2^16`, decrements A
modulo `2^16`, sets DBR to the destination bank, and rewinds PC to the MVN
opcode exactly when the decremented A is not `0xFFFF` (otherwise PC rests
past the operands); MVP (opcode `0x44`) is the same with X and Y
decremented. -/
theorem claim_C9 :
    (∀ (mc : Machine),
      mc.regs.PC < 0x10000 → mc.regs.A < 0x10000 →
      mc.mem.read ((mc.regs.PBR <<< 16) ||| mc.regs.PC) = 0x54 →
      executeInstruction mc =
        ({ regs := { mc.regs with
              X := (mc.regs.X + 1) % 0x10000,
              Y := (mc.regs.Y + 1) % 0x10000,
              A := (mc.regs.A + 0xFFFF) % 0x10000,
              DBR := mc.mem.read ((mc.regs.PBR <<< 16) ||| ((mc.regs.PC + 1) % 0x10000)),
              PC := if (mc.regs.A + 0xFFFF) % 0x10000 ≠ 0xFFFF then mc.regs.PC
                    else (mc.regs.PC + 3) % 0x10000 },
           mem := mc.mem.write
              ((mc.mem.read ((mc.regs.PBR <<< 16) ||| ((mc.regs.PC + 1) % 0x10000)) <<< 16) |||
                mc.regs.Y)
              (mc.mem.read
                ((mc.mem.read ((mc.regs.PBR <<< 16) ||| ((mc.regs.PC + 2) % 0x10000)) <<< 16) |||
                  mc.regs.X)) },
         7)) ∧
    (∀ (mc : Machine),
      mc.regs.PC < 0x10000 → mc.regs.A < 0x10000 →
      mc.mem.read ((mc.regs.PBR <<< 16) ||| mc.regs.PC) = 0x44 →
      executeInstruction mc =
        ({ regs := { mc.regs with
              X := (mc.regs.X + 0xFFFF) % 0x10000,
              Y := (mc.regs.Y + 0xFFFF) % 0x10000,
              A := (mc.regs.A + 0xFFFF) % 0x10000,
              DBR := mc.mem.read ((mc.regs.PBR <<< 16) ||| ((mc.regs.PC + 1) % 0x10000)),
              PC := if (mc.regs.A + 0xFFFF) % 0x10000 ≠ 0xFFFF then mc.regs.PC
                    else (mc.regs.PC + 3) % 0x10000 },
           mem := mc.mem.write
              ((mc.mem.read ((mc.regs.PBR <<< 16) ||| ((mc.regs.PC + 1) % 0x10000)) <<< 16) |||
                mc.regs.Y)
              (mc.mem.read
                ((mc.mem.read ((mc.regs.PBR <<< 16) ||| ((mc.regs.PC + 2) % 0x10000)) <<< 16) |||
                  mc.regs.X)) },
         7)) := by
  constructor
  · intro mc hPC hA hop
    have e2 : ((mc.regs.PC + 1) % 0x10000 + 1) % 0x10000 = (mc.regs.PC + 2) % 0x10000 := by
      omega
    have e3 : ((mc.regs.PC + 2) % 0x10000 + 1) % 0x10000 = (mc.regs.PC + 3) % 0x10000 := by
      omega
    simp only [executeInstruction, fetchByte, read8]
    rw [hop, dispatch_MVN]
    simp only [op_MVN, fetchByte, read8, write8, e2, e3, and_mask16]
    by_cases hA0 : mc.regs.A = 0
    · have hcond : ¬ ((mc.regs.A + 0xFFFF) % 0x10000 ≠ 0xFFFF) := by omega
      rw [if_pos hA0, if_neg hcond]
      simp only [Prod.mk.injEq, Machine.mk.injEq, Registers.mk.injEq]
      and_intros <;> first | exact trivial | omega
    · have hcond : (mc.regs.A + 0xFFFF) % 0x10000 ≠ 0xFFFF := by omega
      rw [if_neg hA0, if_pos hcond]
      simp only [Prod.mk.injEq, Machine.mk.injEq, Registers.mk.injEq]
      and_intros <;> first | exact trivial | omega
  · intro mc hPC hA hop
    have e2 : ((mc.regs.PC + 1) % 0x10000 + 1) % 0x10000 = (mc.regs.PC + 2) % 0x10000 := by
      omega
    have e3 : ((mc.regs.PC + 2) % 0x10000 + 1) % 0x10000 = (mc.regs.PC + 3) % 0x10000 := by
      omega
    simp only [executeInstruction, fetchByte, read8]
    rw [hop, dispatch_MVP]
    simp only [op_MVP, fetchByte, read8, write8, e2, e3, and_mask16]
    by_cases hA0 : mc.regs.A = 0
    · have hcond : ¬ ((mc.regs.A + 0xFFFF) % 0x10000 ≠ 0xFFFF) := by omega
      rw [if_pos hA0, if_neg hcond]
      simp only [Prod.mk.injEq, Machine.mk.injEq, Registers.mk.injEq]
      and_intros <;> first | exact trivial | omega
    · have hcond : (mc.regs.A + 0xFFFF) % 0x10000 ≠ 0xFFFF := by omega
      rw [if_neg hA0, if_pos hcond]
      simp only [Prod.mk.injEq, Machine.mk.injEq, Registers.mk.injEq]
      and_intros <;> first | exact trivial | omega

/-- Witness for C9 on concrete MVN and MVP programs: with `A = 3`,
`X = 0x1000`, `Y = 0x2000` and `MVN $01,$02` (resp. `MVP`) at `00:8000`, one
step leaves `A = 2`, adjusts X and Y by one, sets `DBR = 2` and rewinds PC to
`0x8000`. -/
theorem claim_C9_witness :
    ((executeInstruction mcMvn).1.regs.X = 0x1001 ∧
     (executeInstruction mcMvn).1.regs.Y = 0x2001 ∧
     (executeInstruction mcMvn).1.regs.A = 2 ∧
     (executeInstruction mcMvn).1.regs.DBR = 2 ∧
     (executeInstruction mcMvn).1.regs.PC = 0x8000) ∧
    ((executeInstruction mcMvp).1.regs.X = 0x0FFF ∧
     (executeInstruction mcMvp).1.regs.Y = 0x1FFF ∧
     (executeInstruction mcMvp).1.regs.A = 2 ∧
     (executeInstruction mcMvp).1.regs.DBR = 2 ∧
     (executeInstruction mcMvp).1.regs.PC = 0x8000) := by
  have h1 := claim_C9.1 mcMvn (by decide) (by decide) (by decide)
  have h2 := claim_C9.2 mcMvp (by decide) (by decide) (by decide)
  rw [h1, h2]
  decide

/-! ## Claim C1: the E=1 invariants are violated by TSX and TXS -/

/-- C1 fails on the code: from the reset state (which has E=1, M=X=1, and is
reachable by definition), executing TSX (opcode `0xBA`) leaves E=1 and the
M/X flags forced, but loads the full 16-bit `SP = 0x01FF` into X, so X's high
byte is `0x01`, not 0; and executing TXS (opcode `0x9A`, with `X = 0`) sets
`SP = 0x0000`, whose high byte is `0x00`, not `0x01`. -/
theorem claim_C1_code_behaviour :
    (mcTSX.regs.E = true ∧ mcTSX.regs.P &&& 0x30 = 0x30 ∧
     (executeInstruction mcTSX).1.regs.E = true ∧
     (executeInstruction mcTSX).1.regs.P &&& 0x30 = 0x30 ∧
     (executeInstruction mcTSX).1.regs.X = 0x01FF ∧
     (executeInstruction mcTSX).1.regs.X >>> 8 ≠ 0) ∧
    (mcTXS.regs.E = true ∧ mcTXS.regs.X = 0 ∧
     (executeInstruction mcTXS).1.regs.E = true ∧
     (executeInstruction mcTXS).1.regs.SP = 0 ∧
     (executeInstruction mcTXS).1.regs.SP &&& 0xFF00 ≠ 0x0100) := by
  decide

/-! ## Claim C2: JMP (absolute indirect) reads its pointer from DBR, not bank 0 -/

/-- C2 fails on the code: with `DBR = 0x7F`, executing `JMP ($1234)` (opcode
`0x6C`) reads the pointer from `7F:1234` (`0x3344` here) instead of from bank
0 (`00:1234` holds the pointer `0x0000` here), so PC becomes `0x3344`, not
the bank-0 pointer; PBR stays unchanged. -/
theorem claim_C2_code_behaviour :
    mcJmpInd.regs.DBR = 0x7F ∧
    mcJmpInd.mem.read 0x001234 = 0 ∧ mcJmpInd.mem.read 0x001235 = 0 ∧
    mcJmpInd.mem.read 0x7F1234 = 0x44 ∧ mcJmpInd.mem.read 0x7F1235 = 0x33 ∧
    (executeInstruction mcJmpInd).1.regs.PC = 0x3344 ∧
    (executeInstruction mcJmpInd).1.regs.PC ≠ 0x0000 ∧
    (executeInstruction mcJmpInd).1.regs.PBR = 0 := by
  decide

/-! ## Claim C3: Absolute,X sign-extends through int16 -/

/-- C3 fails on the code: with `DBR = 0`, `X = 0` and operand `lo16 = 0x8000`,
`getAddress_AbsoluteX` stores `0x8000` into an `int16` (value `-32768`) and
sign-extends it into the `uint32` result, producing `0xFFFF8000`: bits 24-31
are set and the bank byte is `0xFF`, not `DBR = 0`; the claimed address is
`0x008000`. -/
theorem claim_C3_code_behaviour :
    mcAbsX.regs.DBR = 0 ∧ mcAbsX.regs.X = 0 ∧
    mcAbsX.mem.read 0x001000 = 0x00 ∧ mcAbsX.mem.read 0x001001 = 0x80 ∧
    (getAddress_AbsoluteX mcAbsX).1 = 0xFFFF8000 ∧
    (getAddress_AbsoluteX mcAbsX).1 ≠ 0x008000 ∧
    (getAddress_AbsoluteX mcAbsX).1 >>> 24 ≠ 0 ∧
    ((getAddress_AbsoluteX mcAbsX).1 >>> 16) &&& 0xFF = 0xFF := by
  decide

/-! ## Claim C4: index-width immediates advance PC by the M width -/

/-- C4 fails on the code: in a state with `M = 1` and `X = 0`, executing
`LDX #imm` (opcode `0xA2`, operand bytes `0x05 0x07` at `0x1001`-`0x1002`)
advances PC past the operand by only 1 byte (to `0x1002`, where the claim
demands `0x1003`), because `getAddress_Immediate` is gated on the M flag;
`op_LDX` still performs a 16-bit read, loading `X = 0x0705` and consuming the
byte after the operand. -/
theorem claim_C4_code_behaviour :
    isMemory8Bit mcLdxImm.regs = true ∧ isIndex8Bit mcLdxImm.regs = false ∧
    mcLdxImm.mem.read 0x001000 = 0xA2 ∧
    (executeInstruction mcLdxImm).1.regs.PC = 0x1002 ∧
    (executeInstruction mcLdxImm).1.regs.PC ≠ 0x1003 ∧
    (executeInstruction mcLdxImm).1.regs.X = 0x0705 := by
  decide

/-! ## Claim C8: the ADC/SBC complementary-carry round trip -/

theorem getFlag_setFlag_same (r : Registers) (b : Bool) (f : Nat) (hf : 0 < f)
    (hc : (0xFF ^^^ f) &&& f = 0) : getFlag (setFlag r f b) f = b := by
  cases b with
  | true =>
    have hle : f ≤ (r.P ||| f) &&& f :=
      Nat.le_of_testBit (fun i hi => by simp [Nat.testBit_land, Nat.testBit_lor, hi])
    simp [getFlag, setFlag]
    omega
  | false =>
    simp [getFlag, setFlag]
    rw [Nat.and_assoc, hc, Nat.and_zero]

theorem getFlag_setFlag_ne (r : Registers) (b : Bool) (f g : Nat)
    (h1 : g &&& f = 0) (h2 : (0xFF ^^^ g) &&& f = f) :
    getFlag (setFlag r g b) f = getFlag r f := by
  cases b with
  | true =>
    simp only [setFlag, if_true]
    unfold getFlag
    rw [Nat.and_distrib_right, h1, Nat.or_zero]
  | false =>
    simp only [setFlag, Bool.false_eq_true, if_false]
    unfold getFlag
    rw [Nat.and_assoc, h2]

theorem setFlag_A (r : Registers) (g : Nat) (b : Bool) : (setFlag r g b).A = r.A := by
  unfold setFlag
  split <;> rfl

theorem isMemory8Bit_eq_getFlag (r : Registers) :
    isMemory8Bit r = getFlag r FLAG_MEMORY_WIDTH := rfl

theorem Memory.read_lt (m : Memory) (h : m.WF) (a : Nat) : m.read a < 256 := by
  obtain ⟨hw, hs, hr⟩ := h
  unfold Memory.read Memory.readMapped
  split
  all_goals simp only []
  all_goals try split_ifs
  all_goals first | exact hw _ | exact hs _ | exact hr _ | norm_num

theorem getFlag_updateA (r : Registers) (x f : Nat) :
    getFlag { r with A := x } f = getFlag r f := rfl

theorem isMemory8Bit_updateA (r : Registers) (x : Nat) :
    isMemory8Bit { r with A := x } = isMemory8Bit r := rfl

theorem gC_sC (r : Registers) (b : Bool) :
    getFlag (setFlag r FLAG_CARRY b) FLAG_CARRY = b :=
  getFlag_setFlag_same r b _ (by decide) (by decide)

theorem gC_sZ (r : Registers) (b : Bool) :
    getFlag (setFlag r FLAG_ZERO b) FLAG_CARRY = getFlag r FLAG_CARRY :=
  getFlag_setFlag_ne r b _ _ (by decide) (by decide)

theorem gC_sV (r : Registers) (b : Bool) :
    getFlag (setFlag r FLAG_OVERFLOW b) FLAG_CARRY = getFlag r FLAG_CARRY :=
  getFlag_setFlag_ne r b _ _ (by decide) (by decide)

theorem gC_sN (r : Registers) (b : Bool) :
    getFlag (setFlag r FLAG_NEGATIVE b) FLAG_CARRY = getFlag r FLAG_CARRY :=
  getFlag_setFlag_ne r b _ _ (by decide) (by decide)

theorem gD_sC (r : Registers) (b : Bool) :
    getFlag (setFlag r FLAG_CARRY b) FLAG_DECIMAL = getFlag r FLAG_DECIMAL :=
  getFlag_setFlag_ne r b _ _ (by decide) (by decide)

theorem gD_sZ (r : Registers) (b : Bool) :
    getFlag (setFlag r FLAG_ZERO b) FLAG_DECIMAL = getFlag r FLAG_DECIMAL :=
  getFlag_setFlag_ne r b _ _ (by decide) (by decide)

theorem gD_sV (r : Registers) (b : Bool) :
    getFlag (setFlag r FLAG_OVERFLOW b) FLAG_DECIMAL = getFlag r FLAG_DECIMAL :=
  getFlag_setFlag_ne r b _ _ (by decide) (by decide)

theorem gD_sN (r : Registers) (b : Bool) :
    getFlag (setFlag r FLAG_NEGATIVE b) FLAG_DECIMAL = getFlag r FLAG_DECIMAL :=
  getFlag_setFlag_ne r b _ _ (by decide) (by decide)

theorem gM_sC (r : Registers) (b : Bool) :
    isMemory8Bit (setFlag r FLAG_CARRY b) = isMemory8Bit r := by
  rw [isMemory8Bit_eq_getFlag, isMemory8Bit_eq_getFlag]
  exact getFlag_setFlag_ne r b _ _ (by decide) (by decide)

theorem gM_sZ (r : Registers) (b : Bool) :
    isMemory8Bit (setFlag r FLAG_ZERO b) = isMemory8Bit r := by
  rw [isMemory8Bit_eq_getFlag, isMemory8Bit_eq_getFlag]
  exact getFlag_setFlag_ne r b _ _ (by decide) (by decide)

theorem gM_sV (r : Registers) (b : Bool) :
    isMemory8Bit (setFlag r FLAG_OVERFLOW b) = isMemory8Bit r := by
  rw [isMemory8Bit_eq_getFlag, isMemory8Bit_eq_getFlag]
  exact getFlag_setFlag_ne r b _ _ (by decide) (by decide)

theorem gM_sN (r : Registers) (b : Bool) :
    isMemory8Bit (setFlag r FLAG_NEGATIVE b) = isMemory8Bit r := by
  rw [isMemory8Bit_eq_getFlag, isMemory8Bit_eq_getFlag]
  exact getFlag_setFlag_ne r b _ _ (by decide) (by decide)

theorem op_ADC_mem (mc : Machine) (address : Nat) :
    (op_ADC mc address).mem = mc.mem := by
  unfold op_ADC
  split <;> rfl

theorem op_SBC_mem (mc : Machine) (address : Nat) :
    (op_SBC mc address).mem = mc.mem := by
  unfold op_SBC
  repeat' split
  all_goals rfl

theorem isMemory8Bit_op_ADC (mc : Machine) (address : Nat) :
    isMemory8Bit (op_ADC mc address).regs = isMemory8Bit mc.regs := by
  unfold op_ADC updateNZ8 updateNZ16
  split <;>
    simp only [gM_sN, gM_sZ, isMemory8Bit_updateA, gM_sV, gM_sC]

theorem getFlag_op_ADC_D (mc : Machine) (address : Nat) :
    getFlag (op_ADC mc address).regs FLAG_DECIMAL = getFlag mc.regs FLAG_DECIMAL := by
  unfold op_ADC updateNZ8 updateNZ16
  split <;>
    simp only [gD_sN, gD_sZ, getFlag_updateA, gD_sV, gD_sC]

theorem op_ADC_A_8 (mc : Machine) (address : Nat) (h8 : isMemory8Bit mc.regs = true) :
    (op_ADC mc address).regs.A =
      (mc.regs.A &&& 0xFF00) |||
        ((mc.regs.A &&& 0xFF) + read8 mc.mem address +
          (if getFlag mc.regs FLAG_CARRY then 1 else 0)) &&& 0xFF := by
  unfold op_ADC updateNZ8
  rw [h8]
  simp only [if_true, setFlag_A]

theorem op_ADC_A_16 (mc : Machine) (address : Nat) (h8 : isMemory8Bit mc.regs = false) :
    (op_ADC mc address).regs.A =
      (mc.regs.A + read16 mc.mem address +
        (if getFlag mc.regs FLAG_CARRY then 1 else 0)) &&& 0xFFFF := by
  unfold op_ADC updateNZ16
  rw [h8]
  simp only [if_false, setFlag_A, Bool.false_eq_true]

theorem op_SBC_A_8 (mc : Machine) (address : Nat) (h8 : isMemory8Bit mc.regs = true)
    (hD : getFlag mc.regs FLAG_DECIMAL = false) :
    (op_SBC mc address).regs.A =
      (mc.regs.A &&& 0xFF00) |||
        ((((mc.regs.A &&& 0xFF : Nat) : Int) - read8 mc.mem address -
          (1 - (if getFlag mc.regs FLAG_CARRY then 1 else 0))) % 0x10000).toNat &&& 0xFF := by
  unfold op_SBC updateNZ8
  rw [h8, hD]
  simp only [if_true, if_false, setFlag_A, Bool.false_eq_true]

theorem op_SBC_C_8 (mc : Machine) (address : Nat) (h8 : isMemory8Bit mc.regs = true)
    (hD : getFlag mc.regs FLAG_DECIMAL = false) :
    getFlag (op_SBC mc address).regs FLAG_CARRY =
      decide (((((mc.regs.A &&& 0xFF : Nat) : Int) - read8 mc.mem address -
        (1 - (if getFlag mc.regs FLAG_CARRY then 1 else 0))) % 0x10000).toNat &&& 0x100 = 0) := by
  unfold op_SBC updateNZ8
  rw [h8, hD]
  simp only [if_true, if_false, Bool.false_eq_true, gC_sN, gC_sZ, getFlag_updateA, gC_sV, gC_sC]

theorem op_SBC_A_16 (mc : Machine) (address : Nat) (h8 : isMemory8Bit mc.regs = false) :
    (op_SBC mc address).regs.A =
      (((mc.regs.A : Int) - read16 mc.mem address -
        (1 - (if getFlag mc.regs FLAG_CARRY then 1 else 0))) % 0x100000000).toNat &&& 0xFFFF := by
  unfold op_SBC updateNZ16
  rw [h8]
  simp only [if_false, setFlag_A, Bool.false_eq_true]

theorem op_SBC_C_16 (mc : Machine) (address : Nat) (h8 : isMemory8Bit mc.regs = false) :
    getFlag (op_SBC mc address).regs FLAG_CARRY =
      decide ((((mc.regs.A : Int) - read16 mc.mem address -
        (1 - (if getFlag mc.regs FLAG_CARRY then 1 else 0))) % 0x100000000).toNat &&& 0x10000 = 0) := by
  unfold op_SBC updateNZ16
  rw [h8]
  simp only [if_false, Bool.false_eq_true, gC_sN, gC_sZ, getFlag_updateA, gC_sV, gC_sC]

theorem int_sub_emod_toNat16 (x y : Nat) (hx : x < 0x10000) (hy : y < 0x10000) :
    (((x : Int) - y) % 0x10000).toNat = if y ≤ x then x - y else 0x10000 + x - y := by
  split <;> omega

theorem int_sub_emod_toNat32 (x y : Nat) (hx : x < 0x100000000) (hy : y < 0x100000000) :
    (((x : Int) - y) % 0x100000000).toNat =
      if y ≤ x then x - y else 0x100000000 + x - y := by
  split <;> omega

theorem read8_eq (m : Memory) (a : Nat) : read8 m a = m.read a := rfl

theorem and_ff00_arith (x : Nat) : x &&& 0xFF00 = 2 ^ 8 * (x / 2 ^ 8 % 2 ^ 8) := by
  apply Nat.eq_of_testBit_eq
  intro j
  rw [Nat.testBit_land, Nat.testBit_mul_pow_two, Nat.testBit_mod_two_pow,
    show x / 2 ^ 8 = x >>> 8 from (Nat.shiftRight_eq_div_pow x 8).symm,
    Nat.testBit_shiftRight]
  by_cases h : 8 ≤ j
  · by_cases h2 : j < 16
    · have hj : 8 + (j - 8) = j := by omega
      have hb : Nat.testBit 0xFF00 j = true := by
        interval_cases j <;> decide
      have hj8 : j - 8 < 8 := by omega
      simp [hj, hb, h, hj8]
    · have hlt : (0xFF00 : Nat) < 2 ^ j :=
        lt_of_lt_of_le (show (0xFF00 : Nat) < 2 ^ 16 by norm_num)
          (Nat.pow_le_pow_right (by norm_num) (by omega))
      have hb : Nat.testBit 0xFF00 j = false := Nat.testBit_lt_two_pow hlt
      have hj8 : ¬ (j - 8 < 8) := by omega
      simp [hb, hj8]
  · have hb : Nat.testBit 0xFF00 j = false := by
      interval_cases j <;> decide
    simp [hb, h]

theorem and_ff_of_append (x y : Nat) : ((x &&& 0xFF00) ||| y) &&& 0xFF = y &&& 0xFF := by
  rw [Nat.and_distrib_right, Nat.and_assoc,
    show (0xFF00 : Nat) &&& 0xFF = 0 by decide, Nat.and_zero, Nat.zero_or]

theorem small_and_ff00 (y : Nat) (h : y < 0x100) : y &&& 0xFF00 = 0 := by
  have h2 : y &&& 0xFF = y := by
    rw [and_mask8]
    omega
  rw [← h2, Nat.and_assoc, show (0xFF : Nat) &&& 0xFF00 = 0 by decide, Nat.and_zero]

theorem and_ff00_of_append (x y : Nat) (h : y < 0x100) :
    ((x &&& 0xFF00) ||| y) &&& 0xFF00 = x &&& 0xFF00 := by
  rw [Nat.and_distrib_right, Nat.and_assoc,
    show (0xFF00 : Nat) &&& 0xFF00 = 0xFF00 by decide, small_and_ff00 y h, Nat.or_zero]

theorem and_bit8_zero_iff (x : Nat) : (x &&& 0x100 = 0) ↔ x / 0x100 % 2 = 0 := by
  rw [show (0x100 : Nat) = 2 ^ 8 by norm_num, Nat.and_two_pow]
  cases hb : x.testBit 8 with
  | false =>
    rw [Nat.testBit_to_div_mod] at hb
    simp at hb ⊢
    omega
  | true =>
    rw [Nat.testBit_to_div_mod] at hb
    simp at hb ⊢
    omega

theorem and_bit16_zero_iff (x : Nat) : (x &&& 0x10000 = 0) ↔ x / 0x10000 % 2 = 0 := by
  rw [show (0x10000 : Nat) = 2 ^ 16 by norm_num, Nat.and_two_pow]
  cases hb : x.testBit 16 with
  | false =>
    rw [Nat.testBit_to_div_mod] at hb
    simp at hb ⊢
    omega
  | true =>
    rw [Nat.testBit_to_div_mod] at hb
    simp at hb ⊢
    omega

theorem read16_lt (m : Memory) (h : m.WF) (a : Nat) : read16 m a < 0x10000 := by
  unfold read16 read8
  have h1 := Memory.read_lt m h a
  have h2 := Memory.read_lt m h (a + 1)
  have hsh : (m.read (a + 1)) <<< 8 < 2 ^ 16 := by
    rw [Nat.shiftLeft_eq]
    omega
  have hlo : m.read a < 2 ^ 16 := by omega
  exact Nat.or_lt_two_pow hsh hlo

theorem adcSbcRound_8bit : ∀ (mc : Machine) (address : Nat) (c : Bool),
    Memory.WF mc.mem →
    getFlag mc.regs FLAG_DECIMAL = false →
    mc.regs.A < 0x10000 →
    isMemory8Bit mc.regs = true →
    (adcSbcRound mc address c).regs.A = mc.regs.A ∧
    getFlag (adcSbcRound mc address c).regs FLAG_CARRY =
      decide (mc.regs.A % 0x100 + mc.mem.read address + (if c then 1 else 0) < 0x100) := by
  intro mc address c hWF hD hA h8
  have hop : mc.mem.read address < 256 := Memory.read_lt mc.mem hWF address
  unfold adcSbcRound
  have hM0 : isMemory8Bit ({ mc with regs := setFlag mc.regs FLAG_CARRY c } : Machine).regs = true := by
    simp only [gM_sC]
    exact h8
  have hM1 : isMemory8Bit (setFlag (op_ADC { mc with regs := setFlag mc.regs FLAG_CARRY c } address).regs FLAG_CARRY (!c)) = true := by
    rw [gM_sC, isMemory8Bit_op_ADC]
    exact hM0
  have hD1 : getFlag (setFlag (op_ADC { mc with regs := setFlag mc.regs FLAG_CARRY c } address).regs FLAG_CARRY (!c)) FLAG_DECIMAL = false := by
    rw [gD_sC, getFlag_op_ADC_D]
    simp only [gD_sC]
    exact hD
  have hA1 := op_ADC_A_8 { mc with regs := setFlag mc.regs FLAG_CARRY c } address hM0
  simp only [setFlag_A, gC_sC, read8_eq] at hA1
  have hSA := op_SBC_A_8
    { regs := setFlag (op_ADC { mc with regs := setFlag mc.regs FLAG_CARRY c } address).regs FLAG_CARRY (!c),
      mem := (op_ADC { mc with regs := setFlag mc.regs FLAG_CARRY c } address).mem }
    address hM1 hD1
  have hSC := op_SBC_C_8
    { regs := setFlag (op_ADC { mc with regs := setFlag mc.regs FLAG_CARRY c } address).regs FLAG_CARRY (!c),
      mem := (op_ADC { mc with regs := setFlag mc.regs FLAG_CARRY c } address).mem }
    address hM1 hD1
  simp only [setFlag_A, gC_sC, read8_eq, op_ADC_mem, hA1] at hSA hSC
  simp only [op_ADC_mem]
  rw [hSA, hSC]
  have hR8 : ((mc.regs.A &&& 255) + mc.mem.read address + (if c = true then 1 else 0)) &&& 255 < 256 := by
    rw [and_mask8]
    omega
  rw [and_ff00_of_append _ _ hR8, and_ff_of_append]
  cases c
  · simp only [Bool.not_false, if_true, Bool.false_eq_true, if_false, Nat.add_zero,
      sub_self, sub_zero]
    have hw := int_sub_emod_toNat16
      (((mc.regs.A &&& 255) + mc.mem.read address) &&& 255 &&& 255)
      (mc.mem.read address) (by simp only [and_mask8]; omega) (by omega)
    rw [hw]
    constructor
    · rw [and_ff00_arith]
      have hL : ((if mc.mem.read address ≤ ((mc.regs.A &&& 255) + mc.mem.read address) &&& 255 &&& 255 then
            (((mc.regs.A &&& 255) + mc.mem.read address) &&& 255 &&& 255) - mc.mem.read address
          else 0x10000 + (((mc.regs.A &&& 255) + mc.mem.read address) &&& 255 &&& 255) - mc.mem.read address) &&& 255) < 2 ^ 8 := by
        rw [and_mask8]
        omega
      rw [← Nat.mul_add_lt_is_or hL]
      simp only [and_mask8]
      split <;> omega
    · rw [decide_eq_decide, and_bit8_zero_iff]
      simp only [and_mask8]
      split <;> omega
  · simp only [Bool.not_true, if_true, Bool.false_eq_true, if_false, sub_zero]
    have hc1 : ∀ z w : Nat, ((z : Int) - w - 1) = (z : Int) - ((w + 1 : Nat) : Int) := by
      intro z w
      push_cast
      ring
    rw [hc1]
    have hw := int_sub_emod_toNat16
      ((((mc.regs.A &&& 255) + mc.mem.read address + 1) &&& 255) &&& 255)
      (mc.mem.read address + 1) (by simp only [and_mask8]; omega) (by omega)
    rw [hw]
    constructor
    · rw [and_ff00_arith]
      have hL : ((if mc.mem.read address + 1 ≤ (((mc.regs.A &&& 255) + mc.mem.read address + 1) &&& 255) &&& 255 then
            ((((mc.regs.A &&& 255) + mc.mem.read address + 1) &&& 255) &&& 255) - (mc.mem.read address + 1)
          else 0x10000 + ((((mc.regs.A &&& 255) + mc.mem.read address + 1) &&& 255) &&& 255) - (mc.mem.read address + 1)) &&& 255) < 2 ^ 8 := by
        rw [and_mask8]
        omega
      rw [← Nat.mul_add_lt_is_or hL]
      simp only [and_mask8]
      split <;> omega
    · rw [decide_eq_decide, and_bit8_zero_iff]
      simp only [and_mask8]
      split <;> omega

theorem adcSbcRound_16bit : ∀ (mc : Machine) (address : Nat) (c : Bool),
    Memory.WF mc.mem →
    getFlag mc.regs FLAG_DECIMAL = false →
    mc.regs.A < 0x10000 →
    isMemory8Bit mc.regs = false →
    (adcSbcRound mc address c).regs.A = mc.regs.A ∧
    getFlag (adcSbcRound mc address c).regs FLAG_CARRY =
      decide (mc.regs.A + read16 mc.mem address + (if c then 1 else 0) < 0x10000) := by
  intro mc address c hWF hD hA h8
  have hop : read16 mc.mem address < 0x10000 := read16_lt mc.mem hWF address
  unfold adcSbcRound
  have hM0 : isMemory8Bit ({ mc with regs := setFlag mc.regs FLAG_CARRY c } : Machine).regs = false := by
    simp only [gM_sC]
    exact h8
  have hM1 : isMemory8Bit (setFlag (op_ADC { mc with regs := setFlag mc.regs FLAG_CARRY c } address).regs FLAG_CARRY (!c)) = false := by
    rw [gM_sC, isMemory8Bit_op_ADC]
    exact hM0
  have hD1 : getFlag (setFlag (op_ADC { mc with regs := setFlag mc.regs FLAG_CARRY c } address).regs FLAG_CARRY (!c)) FLAG_DECIMAL = false := by
    rw [gD_sC, getFlag_op_ADC_D]
    simp only [gD_sC]
    exact hD
  have hA1 := op_ADC_A_16 { mc with regs := setFlag mc.regs FLAG_CARRY c } address hM0
  simp only [setFlag_A, gC_sC] at hA1
  have hSA := op_SBC_A_16
    { regs := setFlag (op_ADC { mc with regs := setFlag mc.regs FLAG_CARRY c } address).regs FLAG_CARRY (!c),
      mem := (op_ADC { mc with regs := setFlag mc.regs FLAG_CARRY c } address).mem }
    address hM1
  have hSC := op_SBC_C_16
    { regs := setFlag (op_ADC { mc with regs := setFlag mc.regs FLAG_CARRY c } address).regs FLAG_CARRY (!c),
      mem := (op_ADC { mc with regs := setFlag mc.regs FLAG_CARRY c } address).mem }
    address hM1
  simp only [setFlag_A, gC_sC, op_ADC_mem, hA1] at hSA hSC
  simp only [op_ADC_mem]
  rw [hSA, hSC]
  cases c
  · simp only [Bool.not_false, if_true, Bool.false_eq_true, if_false, Nat.add_zero,
      sub_self, sub_zero]
    have hw := int_sub_emod_toNat32
      ((mc.regs.A + read16 mc.mem address) &&& 65535)
      (read16 mc.mem address) (by rw [and_mask16]; omega) (by omega)
    rw [hw]
    constructor
    · simp only [and_mask16]
      split <;> omega
    · rw [decide_eq_decide, and_bit16_zero_iff]
      simp only [and_mask16]
      split <;> omega
  · simp only [Bool.not_true, if_true, Bool.false_eq_true, if_false, sub_zero]
    have hc1 : ∀ z w : Nat, ((z : Int) - w - 1) = (z : Int) - ((w + 1 : Nat) : Int) := by
      intro z w
      push_cast
      ring
    rw [hc1]
    have hw := int_sub_emod_toNat32
      ((mc.regs.A + read16 mc.mem address + 1) &&& 65535)
      (read16 mc.mem address + 1) (by rw [and_mask16]; omega) (by omega)
    rw [hw]
    constructor
    · simp only [and_mask16]
      split <;> omega
    · rw [decide_eq_decide, and_bit16_zero_iff]
      simp only [and_mask16]
      split <;> omega

theorem init_WF : Memory.init.WF := by
  refine ⟨fun i => ?_, fun i => ?_, fun i => ?_⟩ <;> norm_num [Memory.init]

/-- Counterexample to C8 as stated: in 8-bit mode with `A = 0`, operand `0`
and carry-in `c = 0`, the ADC/SBC round trip with complementary carry
restores `A = 0` but leaves the carry flag *set*, not restored to 0. -/
theorem claim_C8_counterexample :
    getFlag mcAdcSbc.regs FLAG_DECIMAL = false ∧
    isMemory8Bit mcAdcSbc.regs = true ∧
    mcAdcSbc.regs.A = 0 ∧
    mcAdcSbc.mem.read 0x1000 = 0 ∧
    (adcSbcRound mcAdcSbc 0x1000 false).regs.A = 0 ∧
    getFlag (adcSbcRound mcAdcSbc 0x1000 false).regs FLAG_CARRY = true := by
  decide

/-- C8 (amended): for every state (decimal clear), operand address and
carry-in `c`, ADC with carry-in `c` followed by SBC on the same operand with
carry-in `1 - c` restores A exactly (hence modulo `2^w`); the final carry
flag, however, is the *complement of the carry produced by the ADC* (set iff
`a + operand + c < 2^w`), so C is restored to `c` only when `c` happens to
equal that complement. -/
theorem claim_C8_amended : ∀ (mc : Machine) (address : Nat) (c : Bool),
    Memory.WF mc.mem →
    getFlag mc.regs FLAG_DECIMAL = false →
    mc.regs.A < 0x10000 →
    (adcSbcRound mc address c).regs.A = mc.regs.A ∧
    (isMemory8Bit mc.regs = true →
      getFlag (adcSbcRound mc address c).regs FLAG_CARRY =
        decide (mc.regs.A % 0x100 + mc.mem.read address + (if c then 1 else 0) < 0x100)) ∧
    (isMemory8Bit mc.regs = false →
      getFlag (adcSbcRound mc address c).regs FLAG_CARRY =
        decide (mc.regs.A + read16 mc.mem address + (if c then 1 else 0) < 0x10000)) := by
  intro mc address c hWF hD hA
  refine ⟨?_, ?_, ?_⟩
  · by_cases h8 : isMemory8Bit mc.regs = true
    · exact (adcSbcRound_8bit mc address c hWF hD hA h8).1
    · have h8f : isMemory8Bit mc.regs = false := by
        simp only [Bool.not_eq_true] at h8
        exact h8
      exact (adcSbcRound_16bit mc address c hWF hD hA h8f).1
  · intro h8
    exact (adcSbcRound_8bit mc address c hWF hD hA h8).2
  · intro h8f
    exact (adcSbcRound_16bit mc address c hWF hD hA h8f).2

/-- Witness for C8 (amended) at the concrete 8-bit machine. -/
theorem claim_C8_amended_witness :
    (adcSbcRound mcAdcSbc 0x1000 false).regs.A = mcAdcSbc.regs.A ∧
    getFlag (adcSbcRound mcAdcSbc 0x1000 false).regs FLAG_CARRY = true := by
  have h := claim_C8_amended mcAdcSbc 0x1000 false init_WF (by decide) (by decide)
  refine ⟨h.1, ?_⟩
  rw [h.2.1 (by decide)]
  decide

end Snes
